import Mathlib

/-!
# mod_wait_for_silence: frame classifier and hysteresis / timeout state machine

A shallow embedding of `src/mod_wait_for_silence.c`.

* `uint32_t` values are natural numbers; the operations that can overflow
  (`listening++`, `--silence_hits`, the read cursor `j`, the product in
  `wait_for_silence_start`) are reduced modulo `2 ^ 32`.
* `int32_t` values are integers, brought back into range with `to_int32`.
* The `double` accumulator `energy` is a natural number: it is a sum of fewer
  than `2 ^ 32` terms, each at most `32768`, and every such sum is an exactly
  representable double.  The product `energy * divisor` and the quotient by
  the sample count are rounded to the nearest double, ties to even
  (`round_double`, `div_double_trunc`), before the cast to `uint32_t`
  truncates.  The floating-point diagnostics (`rms`, `decibels`) do not
  influence control flow and are represented by the exact sum of squares.
* Host calls (`switch_channel_set_variable`, the completion event, the private
  channel slot) are recorded in the state that the callback returns.
-/

namespace WaitForSilence

/-! ## Machine integers -/

/-- Conversion to `int32_t` (two's complement). -/
def to_int32 (x : Int) : Int := (x + 2147483648) % 4294967296 - 2147483648

/-- Conversion to `int16_t` (two's complement). -/
def to_int16 (x : Int) : Int := (x + 32768) % 65536 - 32768

/-- The C expression `--x` on a `uint32_t`: `x - 1` modulo `2 ^ 32`, so that
`0` wraps to `4294967295`. -/
def uint32_dec (x : Nat) : Nat := if x = 0 then 4294967295 else x - 1

/-- The C expression `x++` on a `uint32_t`: `x + 1` modulo `2 ^ 32`. -/
def uint32_inc (x : Nat) : Nat := (x + 1) % 4294967296

/-! ## Double-precision arithmetic on non-negative integers

A positive double is `q * 2 ^ e` with `2 ^ 52 ≤ q < 2 ^ 53`.  The values that
occur here lie between `2 ^ (-32)` and `2 ^ 67`, so a search over 128 exponents
finds the scale. -/

/-- The least `s`, searched upwards from the given one, with
`p / 2 ^ s < 2 ^ 53`. -/
def shift_down (p : Nat) : Nat → Nat → Nat
  | 0, s => s
  | fuel + 1, s =>
    if p / 2 ^ s < 9007199254740992 then s else shift_down p fuel (s + 1)

/-- The double nearest to the natural number `p`, ties to even: the value of
the C expression `(double) p`, and of a product of doubles whose exact value
is `p`. -/
def round_double (p : Nat) : Nat :=
  let s := shift_down p 128 0
  let q := p / 2 ^ s
  let r := p % 2 ^ s
  if 2 * r > 2 ^ s ∨ (2 * r = 2 ^ s ∧ q % 2 = 1) then (q + 1) * 2 ^ s else q * 2 ^ s

/-- The least `k`, searched upwards from the given one, with
`2 ^ 52 ≤ a * 2 ^ k / n`. -/
def div_scale (a n : Nat) : Nat → Nat → Nat
  | 0, k => k
  | fuel + 1, k =>
    if 4503599627370496 * n ≤ a * 2 ^ k then k else div_scale a n fuel (k + 1)

/-- The integer part of the double nearest (ties to even) to the quotient
`a / n` of two doubles with natural-number values: the value of the C
expression `a / n` in `double` arithmetic, truncated as the cast to an integer
type does.  Division by `0` is not modelled. -/
def div_double_trunc (a n : Nat) : Nat :=
  if a = 0 then 0
  else if 9007199254740992 * n ≤ a then
    let s := shift_down (a / n) 128 0
    let q := a / (n * 2 ^ s)
    let r := a % (n * 2 ^ s)
    if 2 * r > n * 2 ^ s ∨ (2 * r = n * 2 ^ s ∧ q % 2 = 1) then (q + 1) * 2 ^ s
    else q * 2 ^ s
  else
    let k := div_scale a n 128 0
    let q := a * 2 ^ k / n
    let r := a * 2 ^ k % n
    if 2 * r > n ∨ (2 * r = n ∧ q % 2 = 1) then (q + 1) / 2 ^ k else q / 2 ^ k

/-! ## Data model -/

/-- The enum `wait_for_silence_frame_classifier`. -/
inductive wait_for_silence_frame_classifier where
  | SILENCE
  | VOICED
  | BADFRAME
deriving DecidableEq, Repr

open wait_for_silence_frame_classifier

/-- The fields of `switch_codec_implementation_t` that the module reads. -/
structure switch_codec_implementation_t where
  actual_samples_per_second : Nat
  number_of_channels : Nat
  samples_per_packet : Nat
  microseconds_per_packet : Nat
  iananame : String
deriving DecidableEq, Repr

/-- The fields of `switch_frame_t` that the module reads: `data` is the memory
behind `f->data` viewed as an array of 16-bit samples, `samples` the sample
count. -/
structure switch_frame_t where
  data : Nat → Int
  samples : Nat

/-- The struct `wait_for_silence_frame_analysis_t`; `sum_sq` stands for the
floating-point diagnostics (it is `2 ^ 30` times the C variable `sum`). -/
structure wait_for_silence_frame_analysis_t where
  frame_type : wait_for_silence_frame_classifier
  score : Nat
  energy : Nat
  sum_sq : Nat
deriving DecidableEq, Repr

/-- The channel variables and the private slot the module writes. -/
structure switch_channel_t where
  wait_for_silence_timeout : Option Bool
  wait_for_silence_listenhits : Option Int
  wait_for_silence_silence_hits : Option Int
  wait_for_silence_bug_ : Bool
deriving DecidableEq, Repr

/-- The struct `wait_for_silence_t`. -/
structure wait_for_silence_t where
  channel : switch_channel_t
  listening : Nat
  org_silence_hits : Nat
  silence_hits : Nat
  listen_hits : Nat
  silence_threshold : Nat
  read_impl : switch_codec_implementation_t
  sample_count : Int
  samples_per_packet : Int
  complete : Bool
  silence_detected : Bool
deriving DecidableEq, Repr

/-- The media-bug callback kinds; the module only tells
`SWITCH_ABC_TYPE_READ_REPLACE` from the rest. -/
inductive switch_abc_type_t where
  | SWITCH_ABC_TYPE_READ_REPLACE
  | SWITCH_ABC_TYPE_OTHER
deriving DecidableEq, Repr

open switch_abc_type_t

/-! ## wait_for_silence_analyze_frame -/

/-- The loop variables `j`, `sum` and `energy`. -/
structure analyze_loop_t where
  j : Nat
  sum_sq : Nat
  energy : Nat
deriving DecidableEq, Repr

/-- One pass through the body of the `for` loop. -/
def analyze_loop_body (data : Nat → Int) (number_of_channels : Nat)
    (st : analyze_loop_t) : analyze_loop_t :=
  let sample := to_int16 (data st.j)
  let j1 := (st.j + 1) % 4294967296
  let e := (to_int16 (data j1)).natAbs
  let j2 := (j1 + 1) % 4294967296
  { j := (j2 + number_of_channels) % 4294967296
    sum_sq := st.sum_sq + (sample * sample).natAbs
    energy := st.energy + e }

/-- The `for` loop, run for `count` iterations. -/
def analyze_loop (data : Nat → Int) (number_of_channels : Nat) :
    Nat → analyze_loop_t → analyze_loop_t
  | 0, st => st
  | count + 1, st =>
    analyze_loop data number_of_channels count
      (analyze_loop_body data number_of_channels st)

/-- The two classification tests, in the order the source makes them. -/
def classify_score (score silence_threshold : Nat) :
    wait_for_silence_frame_classifier :=
  let t0 := SILENCE
  let t1 := if score ≥ 5000 then BADFRAME else t0
  if score ≥ silence_threshold then VOICED else t1

/-- The function `wait_for_silence_analyze_frame`. -/
def wait_for_silence_analyze_frame (f : switch_frame_t)
    (codec : switch_codec_implementation_t) (silence_threshold : Nat) :
    wait_for_silence_frame_analysis_t :=
  let divisor := codec.actual_samples_per_second / 8000
  let st := analyze_loop f.data codec.number_of_channels f.samples
    { j := 0, sum_sq := 0, energy := 0 }
  let score :=
    div_double_trunc (round_double (st.energy * divisor)) f.samples % 4294967296
  { frame_type := classify_score score silence_threshold
    score := score
    energy := st.energy
    sum_sq := st.sum_sq }

/-! ## wait_for_silence_callback -/

/-- What one call of the callback produces: the value returned to the host,
the state it leaves, and the `Silence-Detected` header of the completion event
when one was fired. -/
structure callback_result where
  ret : Bool
  wfs : wait_for_silence_t
  event : Option Bool
deriving DecidableEq, Repr

/-- The code after the label `end`. -/
def callback_end (wfs : wait_for_silence_t) (complete : Bool) : callback_result :=
  if complete then
    { ret := false
      wfs := { wfs with
        complete := true
        channel := { wfs.channel with wait_for_silence_bug_ := false } }
      event := some wfs.silence_detected }
  else
    { ret := true, wfs := wfs, event := none }

/-- The hysteresis part of the callback, after the frame has been analysed. -/
def callback_hysteresis (wfs : wait_for_silence_t)
    (frame_type : wait_for_silence_frame_classifier) : callback_result :=
  let wfs1 := if frame_type = VOICED then
      { wfs with listening := uint32_inc wfs.listening }
    else wfs
  if wfs1.listening > wfs1.listen_hits ∧ frame_type = SILENCE then
    let wfs2 := { wfs1 with
      silence_hits := uint32_dec wfs1.silence_hits }
    if wfs2.silence_hits = 0 then
      callback_end
        { wfs2 with
          channel := { wfs2.channel with wait_for_silence_timeout := some false }
          silence_detected := true }
        true
    else
      callback_end wfs2 false
  else
    callback_end { wfs1 with silence_hits := wfs1.org_silence_hits } false

/-- The statement `wfs->sample_count -= wfs->samples_per_packet`, guarded by
`if (wfs->sample_count)`. -/
def callback_decrement (wfs : wait_for_silence_t) : wait_for_silence_t :=
  if wfs.sample_count ≠ 0 then
    { wfs with
      sample_count := to_int32 (wfs.sample_count - wfs.samples_per_packet) }
  else wfs

/-- The function `wait_for_silence_callback`; `frame` is the read-replace frame
of the media bug. -/
def wait_for_silence_callback (wfs : wait_for_silence_t) (frame : switch_frame_t)
    (type : switch_abc_type_t) : callback_result :=
  if type ≠ SWITCH_ABC_TYPE_READ_REPLACE then
    { ret := true, wfs := wfs, event := none }
  else if wfs.complete then
    { ret := false, wfs := wfs, event := none }
  else if frame.samples = 0 then
    { ret := true, wfs := wfs, event := none }
  else
    let wfs1 := callback_decrement wfs
    if wfs.sample_count ≠ 0 ∧ wfs1.sample_count ≤ 0 then
      callback_end
        { wfs1 with
          channel := { wfs1.channel with
            wait_for_silence_timeout := some true
            wait_for_silence_listenhits := some (to_int32 wfs1.listening)
            wait_for_silence_silence_hits := some (to_int32 wfs1.silence_hits) } }
        true
    else
      callback_hysteresis wfs1
        (wait_for_silence_analyze_frame frame wfs1.read_impl
          wfs1.silence_threshold).frame_type

/-! ## wait_for_silence_start -/

/-- What `wait_for_silence_start` learns from the host about a session: its
channel, the read codec implementation (when it can be obtained), and whether
the raw codec and the media bug can be set up. -/
structure switch_core_session_t where
  channel : switch_channel_t
  read_impl : Option switch_codec_implementation_t
  codec_init_ok : Bool
  media_bug_add_ok : Bool
deriving DecidableEq, Repr

/-- The function `wait_for_silence_start`: the detector state attached to the
session, or `none` when the function returns `SWITCH_STATUS_FALSE`.  The state
is allocated zero-filled by `switch_core_session_alloc`. -/
def wait_for_silence_start (session : Option switch_core_session_t)
    (silence_threshold silence_hits listen_hits timeout_ms : Nat) :
    Option wait_for_silence_t :=
  match session with
  | none => none
  | some session =>
    match session.read_impl with
    | none => none
    | some read_impl =>
      let wfs : wait_for_silence_t :=
        { channel := session.channel
          listening := 0
          org_silence_hits := silence_hits
          silence_hits := silence_hits
          listen_hits := listen_hits
          silence_threshold := silence_threshold
          read_impl := read_impl
          sample_count :=
            to_int32 (((read_impl.actual_samples_per_second / 1000) * timeout_ms
              % 4294967296 : Nat) : Int)
          samples_per_packet := to_int32 (read_impl.samples_per_packet : Int)
          complete := false
          silence_detected := false }
      if read_impl.iananame ≠ "PCMU" ∧ session.codec_init_ok = false then none
      else if session.media_bug_add_ok = false then none
      else
        some { wfs with
          channel := { wfs.channel with wait_for_silence_bug_ := true } }

/-! ## Feeding a sequence of frames -/

/-- The state after the callback has been called on each frame in turn. -/
def feed_all (wfs : wait_for_silence_t) : List switch_frame_t → wait_for_silence_t
  | [] => wfs
  | f :: fs =>
    feed_all (wait_for_silence_callback wfs f SWITCH_ABC_TYPE_READ_REPLACE).wfs fs

/-- The results of calling the callback on each frame in turn. -/
def feed_trace (wfs : wait_for_silence_t) : List switch_frame_t → List callback_result
  | [] => []
  | f :: fs =>
    let r := wait_for_silence_callback wfs f SWITCH_ABC_TYPE_READ_REPLACE
    r :: feed_trace r.wfs fs

/-- The sample budget after `n` non-empty frames. -/
def budget_after (sample_count samples_per_packet : Int) : Nat → Int
  | 0 => sample_count
  | n + 1 =>
    budget_after
      (if sample_count ≠ 0 then to_int32 (sample_count - samples_per_packet)
        else sample_count)
      samples_per_packet n

/-- The sample budget is not exhausted by the next `n` non-empty frames: none
of them takes the timeout branch of the callback. -/
def budget_lasts (sample_count samples_per_packet : Int) : Nat → Bool
  | 0 => true
  | n + 1 =>
    if sample_count = 0 then true
    else
      decide (0 < to_int32 (sample_count - samples_per_packet)) &&
        budget_lasts (to_int32 (sample_count - samples_per_packet))
          samples_per_packet n

/-- The classification the callback computes for `f` in state `wfs`. -/
def frame_class (wfs : wait_for_silence_t) (f : switch_frame_t) :
    wait_for_silence_frame_classifier :=
  (wait_for_silence_analyze_frame f wfs.read_impl wfs.silence_threshold).frame_type

/-! ## Concrete inputs used in the examples -/

/-- An 8 kHz mono codec with 20 ms packets. -/
def pcmu8k : switch_codec_implementation_t :=
  { actual_samples_per_second := 8000
    number_of_channels := 1
    samples_per_packet := 160
    microseconds_per_packet := 20000
    iananame := "PCMU" }

/-- A one-sample frame whose energy position holds `5000`. -/
def loud_frame : switch_frame_t :=
  { data := fun i => if i = 1 then 5000 else 0, samples := 1 }

/-- A one-sample frame whose energy position holds `300`. -/
def voice_frame : switch_frame_t :=
  { data := fun i => if i = 1 then 300 else 0, samples := 1 }

/-- A one-sample frame of zeros. -/
def quiet_frame : switch_frame_t :=
  { data := fun _ => 0, samples := 1 }

/-- A frame without samples. -/
def empty_frame : switch_frame_t :=
  { data := fun _ => 0, samples := 0 }

/-- A channel on which nothing has been set. -/
def blank_channel : switch_channel_t :=
  { wait_for_silence_timeout := none
    wait_for_silence_listenhits := none
    wait_for_silence_silence_hits := none
    wait_for_silence_bug_ := false }

/-- A session on the 8 kHz codec for which every host call succeeds. -/
def session8k : switch_core_session_t :=
  { channel := blank_channel
    read_impl := some pcmu8k
    codec_init_ok := true
    media_bug_add_ok := true }


/-- The detector that `wait_for_silence_start` attaches to `session8k` with
silence_threshold 256, silence_hits 3, listen_hits 2 and timeout_ms 60000. -/
def started_state : wait_for_silence_t :=
  { channel := { blank_channel with wait_for_silence_bug_ := true }
    listening := 0
    org_silence_hits := 3
    silence_hits := 3
    listen_hits := 2
    silence_threshold := 256
    read_impl := pcmu8k
    sample_count := 480000
    samples_per_packet := 160
    complete := false
    silence_detected := false }

/-- A primed detector one Silence frame away from detection, with room for one
more packet in its budget. -/
def last_packet_state : wait_for_silence_t :=
  { started_state with listening := 3, silence_hits := 1, sample_count := 160 }

/-- A detector that has completed by detecting silence. -/
def completed_state : wait_for_silence_t :=
  { started_state with
    listening := 3
    silence_hits := 0
    sample_count := 479040
    complete := true
    silence_detected := true }

/-- A detector started with timeout_ms 0, whose budget is therefore 0. -/
def unlimited_state : wait_for_silence_t :=
  { started_state with sample_count := 0 }

/-- What the host observes of each call: the value returned and the completion
event fired, if any. -/
def feed_outcomes (wfs : wait_for_silence_t) (fs : List switch_frame_t) :
    List (Bool × Option Bool) :=
  (feed_trace wfs fs).map (fun r => (r.ret, r.event))

/-- The detector that `wait_for_silence_start` attaches to `session8k` with
silence_threshold 256, silence_hits 1, listen_hits 4294967295 and timeout_ms 0. -/
def wrap_state : wait_for_silence_t :=
  { started_state with
    org_silence_hits := 1
    silence_hits := 1
    listen_hits := 4294967295
    sample_count := 0 }

/-- The detector `started_state` after three Voiced and two Silence frames. -/
def primed_state : wait_for_silence_t :=
  { started_state with listening := 3, silence_hits := 1, sample_count := 479200 }

/-- The detector that `wait_for_silence_start` attaches to `session8k` with
silence_threshold 256, silence_hits 0, listen_hits 0 and timeout_ms 0. -/
def zero_hits_state : wait_for_silence_t :=
  { started_state with
    org_silence_hits := 0
    silence_hits := 0
    listen_hits := 0
    sample_count := 0 }

/-- The frame is non-empty and the callback, in state `wfs`, classifies it
Voiced. -/
def counts_as_voiced (wfs : wait_for_silence_t) (f : switch_frame_t) : Bool :=
  decide (f.samples ≠ 0 ∧ frame_class wfs f = VOICED)

/-- The detector that `wait_for_silence_start` attaches to `session8k` with
silence_threshold 256, silence_hits 3, listen_hits 2 and timeout_ms 120: a
budget of six packets. -/
def short_budget_state : wait_for_silence_t :=
  { started_state with sample_count := 960 }

/-- A primed detector with silence_threshold 6000, above the fixed cutoff of
5000. -/
def high_threshold_state : wait_for_silence_t :=
  { started_state with silence_threshold := 6000, listening := 3, silence_hits := 1 }

/-- A two-sample frame whose only non-zero sample sits at position 3. -/
def stride_frame : switch_frame_t :=
  { data := fun i => if i = 3 then 100 else 0, samples := 2 }

/-- The `for` loop of `wait_for_silence_analyze_frame` on a buffer of known
length: `none` as soon as a position outside the buffer is read. -/
def analyze_loop_checked (buf : List Int) (number_of_channels : Nat) :
    Nat → analyze_loop_t → Option analyze_loop_t
  | 0, st => some st
  | count + 1, st =>
    match buf[st.j]?, buf[(st.j + 1) % 4294967296]? with
    | some sample, some next =>
      analyze_loop_checked buf number_of_channels count
        { j := (((st.j + 1) % 4294967296 + 1) % 4294967296 + number_of_channels)
            % 4294967296
          sum_sq := st.sum_sq + (to_int16 sample * to_int16 sample).natAbs
          energy := st.energy + (to_int16 next).natAbs }
    | _, _ => none

/-- A mono frame of 160 samples, as an 8 kHz codec with 20 ms packets
delivers: its buffer holds 160 samples. -/
def mono_buffer : List Int := List.replicate 160 0

/-- A codec whose sample rate is `8000 * 2 ^ 19` Hz. -/
def fast_codec : switch_codec_implementation_t :=
  { pcmu8k with actual_samples_per_second := 4194304000 }

/-- A frame of `2 ^ 31 + 1` samples of value 8, except for the value 4104 at
position 1. -/
def huge_frame : switch_frame_t :=
  { data := fun i => if i = 1 then 4104 else 8, samples := 2147483649 }

/-! ## wait_for_silence_api_main -/

/-- Conversion to `uint32_t`. -/
def to_uint32 (x : Int) : Nat := (x % 4294967296).toNat

/-- The test `strncasecmp(s1, s2, n) == 0`: the first `n` characters of the two
strings agree up to ASCII case. -/
def strncasecmp_eq (s1 s2 : String) (n : Nat) : Bool :=
  (s1.data.take n).map Char.toLower == (s2.data.take n).map Char.toLower

/-- The configured defaults, the struct `globals`. -/
structure globals_t where
  silence_threshold : Nat
  silence_hits : Nat
  listen_hits : Nat
  timeout_ms : Nat
deriving DecidableEq, Repr

/-- The host functions that `wait_for_silence_api_main` calls:
`switch_separate_string` (the tokens of a command line, at most the given
number), `switch_core_session_locate` and `atoi`. -/
structure api_host_t where
  switch_separate_string : String → Nat → List String
  switch_core_session_locate : String → Option switch_core_session_t
  atoi : String → Int

/-- What the command writes to its stream. -/
inductive api_reply_t where
  | USAGE
  | OK
deriving DecidableEq, Repr

/-- What the command does to the detector of the session. -/
inductive api_action_t where
  | nothing
  | stopped
  | started (silence_threshold silence_hits listen_hits timeout_ms : Nat)
      (wfs : Option wait_for_silence_t)
deriving DecidableEq, Repr

/-- The reply and the action of one command. -/
structure api_result_t where
  reply : Option api_reply_t
  action : api_action_t
deriving DecidableEq, Repr

/-- The constant `WAIT_FOR_SILENCE_PARAMS`. -/
def WAIT_FOR_SILENCE_PARAMS : Nat := 6

/-- The function `wait_for_silence_api_main`; `cmd` is `none` for a NULL
command line. -/
def wait_for_silence_api_main (globals : globals_t) (host : api_host_t)
    (cmd : Option String) : api_result_t :=
  match cmd with
  | none => { reply := some api_reply_t.USAGE, action := api_action_t.nothing }
  | some cmd =>
    if cmd = "" then { reply := some api_reply_t.USAGE, action := api_action_t.nothing }
    else
      let argv := host.switch_separate_string cmd WAIT_FOR_SILENCE_PARAMS
      let argc := argv.length
      if argc ≠ 2 ∧ argc ≠ 6 then
        { reply := some api_reply_t.USAGE, action := api_action_t.nothing }
      else
        let uuid := argv.getD 0 ""
        let command := argv.getD 1 ""
        if strncasecmp_eq command "start" 5 = false ∧
            strncasecmp_eq command "stop" 4 = false then
          { reply := some api_reply_t.USAGE, action := api_action_t.nothing }
        else
          match host.switch_core_session_locate uuid with
          | none => { reply := some api_reply_t.USAGE, action := api_action_t.nothing }
          | some wfs_session =>
            if wfs_session.channel.wait_for_silence_bug_ = true then
              if strncasecmp_eq command "stop" 4 = true then
                { reply := some api_reply_t.OK, action := api_action_t.stopped }
              else
                { reply := none, action := api_action_t.nothing }
            else if strncasecmp_eq command "start" 5 = true then
              let silence_threshold :=
                if argc = 6 then to_uint32 (host.atoi (argv.getD 2 ""))
                else globals.silence_threshold
              let silence_hits :=
                if argc = 6 then to_uint32 (host.atoi (argv.getD 3 ""))
                else globals.silence_hits
              let listen_hits :=
                if argc = 6 then to_uint32 (host.atoi (argv.getD 4 ""))
                else globals.listen_hits
              let timeout_ms :=
                if argc = 6 then to_uint32 (host.atoi (argv.getD 5 ""))
                else globals.timeout_ms
              { reply := some api_reply_t.OK
                action := api_action_t.started silence_threshold silence_hits listen_hits
                  timeout_ms
                  (wait_for_silence_start (some wfs_session) silence_threshold silence_hits
                    listen_hits timeout_ms) }
            else
              { reply := none, action := api_action_t.nothing }

/-- The configured defaults of the module. -/
def default_globals : globals_t :=
  { silence_threshold := 256, silence_hits := 100, listen_hits := 15, timeout_ms := 60000 }

/-- Splitting a command line at blanks into at most `n` arguments: runs of
blanks separate the arguments, and the last of `n` arguments receives the
rest of the line.  `n` counts the arguments still free and `word` holds the
argument being read, reversed. -/
def separate_at_blanks : List Char → Nat → Option (List Char) → List String
  | [], _, none => []
  | [], _, some word => [String.mk word.reverse]
  | c :: cs, n, none =>
    if c = ' ' then separate_at_blanks cs n none
    else if n = 0 then []
    else if n = 1 then [String.mk (c :: cs)]
    else separate_at_blanks cs (n - 1) (some [c])
  | c :: cs, n, some word =>
    if c = ' ' then String.mk word.reverse :: separate_at_blanks cs n none
    else separate_at_blanks cs n (some (c :: word))

/-- The decimal digits at the head of a string, read as a number. -/
def read_digits : List Char → Nat → Nat
  | [], acc => acc
  | c :: cs, acc =>
    if 48 ≤ c.toNat ∧ c.toNat ≤ 57 then read_digits cs (acc * 10 + (c.toNat - 48))
    else acc

/-- Skipping the white space at the head of a string. -/
def skip_space : List Char → List Char
  | [] => []
  | c :: cs =>
    if c.toNat = 32 ∨ (9 ≤ c.toNat ∧ c.toNat ≤ 13) then skip_space cs else c :: cs

/-- The C library function `atoi` on strings whose value fits an `int`: white
space, an optional sign, then decimal digits up to the first other character. -/
def atoi (s : String) : Int :=
  match skip_space s.data with
  | [] => 0
  | c :: cs =>
    if c = '-' then - (read_digits cs 0 : Int)
    else if c = '+' then (read_digits cs 0 : Int)
    else (read_digits (c :: cs) 0 : Int)

/-- A host that knows one session, `uuid1`, on which no detector runs. -/
def one_session_host : api_host_t :=
  { switch_separate_string := fun s n => separate_at_blanks s.data n none
    switch_core_session_locate := fun uuid =>
      if uuid = "uuid1" then some session8k else none
    atoi := atoi }

/-! ## Theorems -/

theorem to_int32_of_range (x : Int) (h1 : -2147483648 ≤ x) (h2 : x < 2147483648) :
    to_int32 x = x := by
  unfold to_int32; omega

theorem to_int32_range (x : Int) :
    -2147483648 ≤ to_int32 x ∧ to_int32 x < 2147483648 := by
  unfold to_int32; omega

@[simp]
theorem callback_decrement_channel (s : wait_for_silence_t) :
    (callback_decrement s).channel = s.channel := by
  unfold callback_decrement; split <;> rfl

@[simp]
theorem callback_decrement_listening (s : wait_for_silence_t) :
    (callback_decrement s).listening = s.listening := by
  unfold callback_decrement; split <;> rfl

@[simp]
theorem callback_decrement_org_silence_hits (s : wait_for_silence_t) :
    (callback_decrement s).org_silence_hits = s.org_silence_hits := by
  unfold callback_decrement; split <;> rfl

@[simp]
theorem callback_decrement_silence_hits (s : wait_for_silence_t) :
    (callback_decrement s).silence_hits = s.silence_hits := by
  unfold callback_decrement; split <;> rfl

@[simp]
theorem callback_decrement_listen_hits (s : wait_for_silence_t) :
    (callback_decrement s).listen_hits = s.listen_hits := by
  unfold callback_decrement; split <;> rfl

@[simp]
theorem callback_decrement_silence_threshold (s : wait_for_silence_t) :
    (callback_decrement s).silence_threshold = s.silence_threshold := by
  unfold callback_decrement; split <;> rfl

@[simp]
theorem callback_decrement_read_impl (s : wait_for_silence_t) :
    (callback_decrement s).read_impl = s.read_impl := by
  unfold callback_decrement; split <;> rfl

@[simp]
theorem callback_decrement_samples_per_packet (s : wait_for_silence_t) :
    (callback_decrement s).samples_per_packet = s.samples_per_packet := by
  unfold callback_decrement; split <;> rfl

@[simp]
theorem callback_decrement_complete (s : wait_for_silence_t) :
    (callback_decrement s).complete = s.complete := by
  unfold callback_decrement; split <;> rfl

@[simp]
theorem callback_decrement_silence_detected (s : wait_for_silence_t) :
    (callback_decrement s).silence_detected = s.silence_detected := by
  unfold callback_decrement; split <;> rfl

theorem callback_decrement_sample_count (s : wait_for_silence_t) :
    (callback_decrement s).sample_count =
      budget_after s.sample_count s.samples_per_packet 1 := by
  unfold callback_decrement budget_after budget_after
  split <;> rfl

/-- A non-empty frame on a pending detector whose budget is not exhausted goes
through the hysteresis step. -/
theorem callback_live (s : wait_for_silence_t) (f : switch_frame_t)
    (hc : s.complete = false) (hf : f.samples ≠ 0)
    (hb : s.sample_count = 0 ∨ 0 < to_int32 (s.sample_count - s.samples_per_packet)) :
    wait_for_silence_callback s f SWITCH_ABC_TYPE_READ_REPLACE =
      callback_hysteresis (callback_decrement s) (frame_class s f) := by
  have hno : ¬ (s.sample_count ≠ 0 ∧ (callback_decrement s).sample_count ≤ 0) := by
    rintro ⟨h0, hle⟩
    rcases hb with hb | hb
    · exact h0 hb
    · simp only [callback_decrement, if_pos h0] at hle
      omega
  simp only [wait_for_silence_callback, frame_class, hc, hf, if_neg hno,
    callback_decrement_read_impl, callback_decrement_silence_threshold]
  simp

/-- A non-empty frame on a pending detector whose budget runs out takes the
timeout branch. -/
theorem callback_timeout (s : wait_for_silence_t) (f : switch_frame_t)
    (hc : s.complete = false) (hf : f.samples ≠ 0)
    (h0 : s.sample_count ≠ 0)
    (hb : to_int32 (s.sample_count - s.samples_per_packet) ≤ 0) :
    wait_for_silence_callback s f SWITCH_ABC_TYPE_READ_REPLACE =
      { ret := false
        wfs := { s with
          sample_count := to_int32 (s.sample_count - s.samples_per_packet)
          complete := true
          channel :=
            { wait_for_silence_timeout := some true
              wait_for_silence_listenhits := some (to_int32 s.listening)
              wait_for_silence_silence_hits := some (to_int32 s.silence_hits)
              wait_for_silence_bug_ := false } }
        event := some s.silence_detected } := by
  have hyes : s.sample_count ≠ 0 ∧ (callback_decrement s).sample_count ≤ 0 := by
    refine ⟨h0, ?_⟩
    simp only [callback_decrement, if_pos h0]
    exact hb
  simp only [wait_for_silence_callback, hc, hf, if_pos hyes, callback_end]
  simp [callback_decrement, h0]


theorem hysteresis_voiced (s : wait_for_silence_t) :
    callback_hysteresis s VOICED =
      { ret := true
        wfs := { s with
          listening := uint32_inc s.listening
          silence_hits := s.org_silence_hits }
        event := none } := by
  simp [callback_hysteresis, callback_end]

theorem hysteresis_badframe (s : wait_for_silence_t) :
    callback_hysteresis s BADFRAME =
      { ret := true
        wfs := { s with silence_hits := s.org_silence_hits }
        event := none } := by
  simp [callback_hysteresis, callback_end]

theorem hysteresis_silence_unprimed (s : wait_for_silence_t)
    (h : s.listening ≤ s.listen_hits) :
    callback_hysteresis s SILENCE =
      { ret := true
        wfs := { s with silence_hits := s.org_silence_hits }
        event := none } := by
  have h' : ¬ (s.listening > s.listen_hits) := by omega
  simp [callback_hysteresis, callback_end, h']

theorem hysteresis_silence_count (s : wait_for_silence_t)
    (h : s.listen_hits < s.listening)
    (hne : s.silence_hits ≠ 1) :
    callback_hysteresis s SILENCE =
      { ret := true
        wfs := { s with
          silence_hits := uint32_dec s.silence_hits }
        event := none } := by
  have hd : uint32_dec s.silence_hits ≠ 0 := by
    unfold uint32_dec; split <;> omega
  simp [callback_hysteresis, callback_end, h, hd]

theorem hysteresis_silence_detect (s : wait_for_silence_t)
    (h : s.listen_hits < s.listening)
    (h0 : s.silence_hits = 1) :
    callback_hysteresis s SILENCE =
      { ret := false
        wfs := { s with
          silence_hits := 0
          silence_detected := true
          complete := true
          channel := { s.channel with
            wait_for_silence_timeout := some false
            wait_for_silence_bug_ := false } }
        event := some true } := by
  have hd : uint32_dec s.silence_hits = 0 := by
    unfold uint32_dec; rw [h0]; rfl
  simp [callback_hysteresis, callback_end, h, hd]

theorem feed_all_append (s : wait_for_silence_t) (xs ys : List switch_frame_t) :
    feed_all s (xs ++ ys) = feed_all (feed_all s xs) ys := by
  induction xs generalizing s with
  | nil => rfl
  | cons x xs ih => simp [feed_all, ih]

theorem feed_trace_append (s : wait_for_silence_t) (xs ys : List switch_frame_t) :
    feed_trace s (xs ++ ys) = feed_trace s xs ++ feed_trace (feed_all s xs) ys := by
  induction xs generalizing s with
  | nil => rfl
  | cons x xs ih => simp [feed_trace, feed_all, ih]

theorem callback_complete (s : wait_for_silence_t) (f : switch_frame_t)
    (h : s.complete = true) :
    wait_for_silence_callback s f SWITCH_ABC_TYPE_READ_REPLACE =
      { ret := false, wfs := s, event := none } := by
  simp [wait_for_silence_callback, h]

theorem feed_all_complete (s : wait_for_silence_t) (fs : List switch_frame_t)
    (h : s.complete = true) : feed_all s fs = s := by
  induction fs with
  | nil => rfl
  | cons f fs ih => simp [feed_all, callback_complete s f h, ih]

theorem feed_trace_complete (s : wait_for_silence_t) (fs : List switch_frame_t)
    (h : s.complete = true) :
    ∀ r ∈ feed_trace s fs, r.event = none := by
  induction fs with
  | nil => simp [feed_trace]
  | cons f fs ih =>
    intro r hr
    simp only [feed_trace, callback_complete s f h, List.mem_cons] at hr
    rcases hr with hr | hr
    · rw [hr]
    · exact ih r hr

/-- Whenever the callback fires the completion event, it leaves the detector
complete. -/
theorem callback_event_complete (s : wait_for_silence_t) (f : switch_frame_t)
    (b : Bool)
    (h : (wait_for_silence_callback s f SWITCH_ABC_TYPE_READ_REPLACE).event = some b) :
    (wait_for_silence_callback s f SWITCH_ABC_TYPE_READ_REPLACE).wfs.complete = true := by
  unfold wait_for_silence_callback callback_hysteresis callback_end at *
  simp only [ne_eq, not_true_eq_false, if_false] at *
  split_ifs at * <;> simp_all


theorem feed_trace_events_complete (s : wait_for_silence_t)
    (fs : List switch_frame_t) (h : s.complete = true) :
    (feed_trace s fs).countP (fun r => r.event.isSome) = 0 := by
  rw [List.countP_eq_zero]
  intro r hr
  simp [feed_trace_complete s fs h r hr]

theorem feed_trace_events_le_one (s : wait_for_silence_t)
    (fs : List switch_frame_t) :
    (feed_trace s fs).countP (fun r => r.event.isSome) ≤ 1 := by
  induction fs generalizing s with
  | nil => simp [feed_trace]
  | cons f fs ih =>
    simp only [feed_trace, List.countP_cons]
    cases hev : (wait_for_silence_callback s f SWITCH_ABC_TYPE_READ_REPLACE).event with
    | none =>
      have := ih (wait_for_silence_callback s f SWITCH_ABC_TYPE_READ_REPLACE).wfs
      simpa using this
    | some b =>
      have hc := callback_event_complete s f b hev
      rw [feed_trace_events_complete _ fs hc]
      simp

/-- C1 (code at the failing input): a one-sample frame with score 5000,
analysed with silence_threshold 256, is classified VOICED and not BADFRAME,
because the later test against silence_threshold overwrites the result of the
test against 5000. -/
theorem C1_score_5000_classified_voiced :
    (wait_for_silence_analyze_frame loud_frame pcmu8k 256).score = 5000 ∧
    loud_frame.samples ≠ 0 ∧
    (wait_for_silence_analyze_frame loud_frame pcmu8k 256).frame_type = VOICED ∧
    (wait_for_silence_analyze_frame loud_frame pcmu8k 256).frame_type ≠ BADFRAME := by
  decide

/-- C2: for a non-empty frame whose score is below 5000, the frame is classified
VOICED exactly when score >= silence_threshold and SILENCE otherwise; a score
equal to silence_threshold is VOICED and a score one below it is SILENCE. -/
theorem C2_voiced_iff_score_ge_threshold (f : switch_frame_t)
    (codec : switch_codec_implementation_t) (silence_threshold : Nat)
    (_hf : f.samples ≠ 0)
    (hscore : (wait_for_silence_analyze_frame f codec silence_threshold).score < 5000) :
    ((wait_for_silence_analyze_frame f codec silence_threshold).frame_type = VOICED ↔
      (wait_for_silence_analyze_frame f codec silence_threshold).score ≥ silence_threshold) ∧
    ((wait_for_silence_analyze_frame f codec silence_threshold).frame_type = SILENCE ↔
      (wait_for_silence_analyze_frame f codec silence_threshold).score < silence_threshold) ∧
    ((wait_for_silence_analyze_frame f codec silence_threshold).score = silence_threshold →
      (wait_for_silence_analyze_frame f codec silence_threshold).frame_type = VOICED) ∧
    ((wait_for_silence_analyze_frame f codec silence_threshold).score + 1 = silence_threshold →
      (wait_for_silence_analyze_frame f codec silence_threshold).frame_type = SILENCE) := by
  simp only [wait_for_silence_analyze_frame, classify_score] at hscore ⊢
  generalize div_double_trunc (round_double
    ((analyze_loop f.data codec.number_of_channels f.samples
      { j := 0, sum_sq := 0, energy := 0 }).energy *
      (codec.actual_samples_per_second / 8000))) f.samples % 4294967296 = score
    at hscore ⊢
  have h5 : ¬ (score ≥ 5000) := by omega
  rw [if_neg h5]
  refine ⟨?_, ?_, ?_, ?_⟩
  · constructor
    · intro h
      by_contra hlt
      rw [if_neg hlt] at h
      exact absurd h (by decide)
    · intro h
      rw [if_pos h]
  · constructor
    · intro h
      by_contra hge
      rw [if_pos (by omega)] at h
      exact absurd h (by decide)
    · intro h
      rw [if_neg (by omega)]
  · intro h
    rw [if_pos (by omega)]
  · intro h
    rw [if_neg (by omega)]

/-- C2 (witness). -/
theorem C2_voiced_iff_score_ge_threshold_witness :
    ((wait_for_silence_analyze_frame voice_frame pcmu8k 300).frame_type = VOICED ↔
      (wait_for_silence_analyze_frame voice_frame pcmu8k 300).score ≥ 300) ∧
    ((wait_for_silence_analyze_frame voice_frame pcmu8k 300).frame_type = SILENCE ↔
      (wait_for_silence_analyze_frame voice_frame pcmu8k 300).score < 300) ∧
    ((wait_for_silence_analyze_frame voice_frame pcmu8k 300).score = 300 →
      (wait_for_silence_analyze_frame voice_frame pcmu8k 300).frame_type = VOICED) ∧
    ((wait_for_silence_analyze_frame voice_frame pcmu8k 300).score + 1 = 300 →
      (wait_for_silence_analyze_frame voice_frame pcmu8k 300).frame_type = SILENCE) :=
  C2_voiced_iff_score_ge_threshold voice_frame pcmu8k 300 (by decide) (by decide)


/-- The hysteresis step leaves the budget and the configuration alone. -/
theorem hysteresis_static (s : wait_for_silence_t)
    (c : wait_for_silence_frame_classifier) :
    (callback_hysteresis s c).wfs.sample_count = s.sample_count ∧
    (callback_hysteresis s c).wfs.samples_per_packet = s.samples_per_packet ∧
    (callback_hysteresis s c).wfs.read_impl = s.read_impl ∧
    (callback_hysteresis s c).wfs.silence_threshold = s.silence_threshold ∧
    (callback_hysteresis s c).wfs.listen_hits = s.listen_hits ∧
    (callback_hysteresis s c).wfs.org_silence_hits = s.org_silence_hits := by
  cases c with
  | VOICED => rw [hysteresis_voiced]; exact ⟨rfl, rfl, rfl, rfl, rfl, rfl⟩
  | BADFRAME => rw [hysteresis_badframe]; exact ⟨rfl, rfl, rfl, rfl, rfl, rfl⟩
  | SILENCE =>
    by_cases h : s.listen_hits < s.listening
    · by_cases h0 : s.silence_hits = 1
      · rw [hysteresis_silence_detect s h h0]; exact ⟨rfl, rfl, rfl, rfl, rfl, rfl⟩
      · rw [hysteresis_silence_count s h h0]; exact ⟨rfl, rfl, rfl, rfl, rfl, rfl⟩
    · rw [hysteresis_silence_unprimed s (by omega)]; exact ⟨rfl, rfl, rfl, rfl, rfl, rfl⟩

/-- The callback never changes the configuration fields. -/
theorem callback_static (s : wait_for_silence_t) (f : switch_frame_t)
    (type : switch_abc_type_t) :
    (wait_for_silence_callback s f type).wfs.samples_per_packet = s.samples_per_packet ∧
    (wait_for_silence_callback s f type).wfs.read_impl = s.read_impl ∧
    (wait_for_silence_callback s f type).wfs.silence_threshold = s.silence_threshold ∧
    (wait_for_silence_callback s f type).wfs.listen_hits = s.listen_hits ∧
    (wait_for_silence_callback s f type).wfs.org_silence_hits = s.org_silence_hits := by
  unfold wait_for_silence_callback
  by_cases ht : type ≠ SWITCH_ABC_TYPE_READ_REPLACE
  · simp [ht]
  by_cases hc : s.complete = true
  · simp [ht, hc]
  by_cases hf : f.samples = 0
  · simp [ht, hc, hf]
  simp only [if_neg ht, if_neg hc, if_neg hf]
  by_cases hb : s.sample_count ≠ 0 ∧ (callback_decrement s).sample_count ≤ 0
  · simp only [if_pos hb, callback_end]
    simp
  · simp only [if_neg hb]
    obtain ⟨-, h2, h3, h4, h5, h6⟩ := hysteresis_static (callback_decrement s)
      (wait_for_silence_analyze_frame f (callback_decrement s).read_impl
        (callback_decrement s).silence_threshold).frame_type
    simp only [callback_decrement_samples_per_packet, callback_decrement_read_impl,
      callback_decrement_silence_threshold, callback_decrement_listen_hits,
      callback_decrement_org_silence_hits] at h2 h3 h4 h5 h6
    simp only [callback_decrement_read_impl, callback_decrement_silence_threshold]
    exact ⟨h2, h3, h4, h5, h6⟩

/-- With a positive budget of at most `n` samples and a positive packet size,
`n` non-empty frames are enough to complete. -/
theorem feed_all_complete_of_budget (n : Nat) :
    ∀ (s : wait_for_silence_t) (fs : List switch_frame_t),
      0 < s.sample_count → s.sample_count ≤ n → s.sample_count < 2147483648 →
      0 < s.samples_per_packet → s.samples_per_packet < 2147483648 →
      (∀ f ∈ fs, f.samples ≠ 0) → n ≤ fs.length →
      (feed_all s fs).complete = true := by
  induction n with
  | zero => intro s fs h1 h2; omega
  | succ n ih =>
    intro s fs hpos hle hlt hp hp2 hfs hlen
    cases hc : s.complete with
    | true => rw [feed_all_complete s fs hc]; exact hc
    | false =>
      cases fs with
      | nil => rw [List.length_nil] at hlen; omega
      | cons f fs =>
        have hf : f.samples ≠ 0 := hfs f (List.mem_cons_self _ _)
        have hfs' : ∀ g ∈ fs, g.samples ≠ 0 := fun g hg => hfs g (List.mem_cons_of_mem _ hg)
        have hlen' : n ≤ fs.length := by rw [List.length_cons] at hlen; omega
        have hrange : to_int32 (s.sample_count - s.samples_per_packet) =
            s.sample_count - s.samples_per_packet :=
          to_int32_of_range _ (by omega) (by omega)
        simp only [feed_all]
        by_cases hb : s.sample_count - s.samples_per_packet ≤ 0
        · rw [callback_timeout s f hc hf (by omega) (by rw [hrange]; exact hb)]
          rw [feed_all_complete _ fs rfl]
        · rw [callback_live s f hc hf (Or.inr (by rw [hrange]; omega))]
          obtain ⟨h1, h2, -⟩ := hysteresis_static (callback_decrement s) (frame_class s f)
          have hsc : (callback_decrement s).sample_count =
              s.sample_count - s.samples_per_packet := by
            simp only [callback_decrement, if_pos (show s.sample_count ≠ 0 by omega)]
            exact hrange
          rw [hsc] at h1
          rw [callback_decrement_samples_per_packet] at h2
          apply ih _ fs
          · rw [h1]; omega
          · rw [h1]; omega
          · rw [h1]; omega
          · rw [h2]; exact hp
          · rw [h2]; exact hp2
          · exact hfs'
          · exact hlen'

/-- With a non-zero budget and a positive packet size, `2 ^ 31 + 1` non-empty
frames are enough to complete. -/
theorem feed_all_complete_of_nonzero (s : wait_for_silence_t)
    (fs : List switch_frame_t)
    (h0 : s.sample_count ≠ 0)
    (hp : 0 < s.samples_per_packet) (hp2 : s.samples_per_packet < 2147483648)
    (hfs : ∀ f ∈ fs, f.samples ≠ 0) (hlen : 2147483649 ≤ fs.length) :
    (feed_all s fs).complete = true := by
  cases hc : s.complete with
  | true => rw [feed_all_complete s fs hc]; exact hc
  | false =>
    cases fs with
    | nil => rw [List.length_nil] at hlen; omega
    | cons f fs =>
      have hf : f.samples ≠ 0 := hfs f (List.mem_cons_self _ _)
      have hfs' : ∀ g ∈ fs, g.samples ≠ 0 := fun g hg => hfs g (List.mem_cons_of_mem _ hg)
      have hlen' : 2147483648 ≤ fs.length := by rw [List.length_cons] at hlen; omega
      have hr := to_int32_range (s.sample_count - s.samples_per_packet)
      simp only [feed_all]
      by_cases hb : to_int32 (s.sample_count - s.samples_per_packet) ≤ 0
      · rw [callback_timeout s f hc hf h0 hb]
        rw [feed_all_complete _ fs rfl]
      · rw [callback_live s f hc hf (Or.inr (by omega))]
        obtain ⟨h1, h2, -⟩ := hysteresis_static (callback_decrement s) (frame_class s f)
        have hsc : (callback_decrement s).sample_count =
            to_int32 (s.sample_count - s.samples_per_packet) := by
          simp only [callback_decrement, if_pos h0]
        rw [hsc] at h1
        rw [callback_decrement_samples_per_packet] at h2
        apply feed_all_complete_of_budget 2147483648 _ fs
        · rw [h1]; omega
        · rw [h1]; norm_num; omega
        · rw [h1]; omega
        · rw [h2]; exact hp
        · rw [h2]; exact hp2
        · exact hfs'
        · exact hlen'


/-- C7: on a pending detector whose positive sample budget is at most the packet
size, every non-empty frame completes with TimedOut: the callback returns
SWITCH_FALSE, fires the completion event with silence_detected false, sets
wait_for_silence_timeout to true and leaves listening and silence_hits
unchanged; the outcome is the same for every non-empty frame, so the frame's
content is not consulted. -/
theorem C7_timeout_precedence (s : wait_for_silence_t) (frame : switch_frame_t)
    (hc : s.complete = false) (hsd : s.silence_detected = false)
    (hframe : frame.samples ≠ 0)
    (hpos : 0 < s.sample_count) (hle : s.sample_count ≤ s.samples_per_packet)
    (hspp : s.samples_per_packet < 2147483648) :
    wait_for_silence_callback s frame SWITCH_ABC_TYPE_READ_REPLACE =
      { ret := false
        wfs := { s with
          sample_count := s.sample_count - s.samples_per_packet
          complete := true
          silence_detected := false
          channel :=
            { wait_for_silence_timeout := some true
              wait_for_silence_listenhits := some (to_int32 s.listening)
              wait_for_silence_silence_hits := some (to_int32 s.silence_hits)
              wait_for_silence_bug_ := false } }
        event := some false } ∧
    (wait_for_silence_callback s frame SWITCH_ABC_TYPE_READ_REPLACE).wfs.listening =
      s.listening ∧
    (wait_for_silence_callback s frame SWITCH_ABC_TYPE_READ_REPLACE).wfs.silence_hits =
      s.silence_hits ∧
    (∀ other : switch_frame_t, other.samples ≠ 0 →
      wait_for_silence_callback s other SWITCH_ABC_TYPE_READ_REPLACE =
        wait_for_silence_callback s frame SWITCH_ABC_TYPE_READ_REPLACE) := by
  have hrange : to_int32 (s.sample_count - s.samples_per_packet) =
      s.sample_count - s.samples_per_packet :=
    to_int32_of_range _ (by omega) (by omega)
  have key : ∀ g : switch_frame_t, g.samples ≠ 0 →
      wait_for_silence_callback s g SWITCH_ABC_TYPE_READ_REPLACE =
      { ret := false
        wfs := { s with
          sample_count := s.sample_count - s.samples_per_packet
          complete := true
          silence_detected := false
          channel :=
            { wait_for_silence_timeout := some true
              wait_for_silence_listenhits := some (to_int32 s.listening)
              wait_for_silence_silence_hits := some (to_int32 s.silence_hits)
              wait_for_silence_bug_ := false } }
        event := some false } := by
    intro g hg
    rw [callback_timeout s g hc hg (by omega) (by rw [hrange]; omega), hrange, hsd]
  refine ⟨key frame hframe, ?_, ?_, ?_⟩
  · rw [key frame hframe]
  · rw [key frame hframe]
  · intro other hother
    rw [key frame hframe, key other hother]

/-- C7 (witness): a primed detector with one silence hit remaining and a budget
equal to the packet size, fed a Silence frame. -/
theorem C7_timeout_precedence_witness :
    (last_packet_state.listening > last_packet_state.listen_hits ∧
      last_packet_state.silence_hits = 1 ∧
      frame_class last_packet_state quiet_frame = SILENCE) ∧
    (wait_for_silence_callback last_packet_state quiet_frame SWITCH_ABC_TYPE_READ_REPLACE =
      { ret := false
        wfs := { last_packet_state with
          sample_count := last_packet_state.sample_count - last_packet_state.samples_per_packet
          complete := true
          silence_detected := false
          channel :=
            { wait_for_silence_timeout := some true
              wait_for_silence_listenhits := some (to_int32 last_packet_state.listening)
              wait_for_silence_silence_hits := some (to_int32 last_packet_state.silence_hits)
              wait_for_silence_bug_ := false } }
        event := some false } ∧
    (wait_for_silence_callback last_packet_state quiet_frame
      SWITCH_ABC_TYPE_READ_REPLACE).wfs.listening = last_packet_state.listening ∧
    (wait_for_silence_callback last_packet_state quiet_frame
      SWITCH_ABC_TYPE_READ_REPLACE).wfs.silence_hits = last_packet_state.silence_hits ∧
    (∀ other : switch_frame_t, other.samples ≠ 0 →
      wait_for_silence_callback last_packet_state other SWITCH_ABC_TYPE_READ_REPLACE =
        wait_for_silence_callback last_packet_state quiet_frame
          SWITCH_ABC_TYPE_READ_REPLACE)) :=
  ⟨by decide, C7_timeout_precedence last_packet_state quiet_frame (by decide) (by decide)
    (by decide) (by decide) (by decide) (by decide)⟩

/-- C8: on a detector that is not complete, a frame with no samples changes no
field of the state, fires no completion event and returns SWITCH_TRUE. -/
theorem C8_empty_frame_noop (s : wait_for_silence_t) (frame : switch_frame_t)
    (type : switch_abc_type_t)
    (hc : s.complete = false) (hframe : frame.samples = 0) :
    wait_for_silence_callback s frame type =
      { ret := true, wfs := s, event := none } := by
  unfold wait_for_silence_callback
  by_cases ht : type ≠ SWITCH_ABC_TYPE_READ_REPLACE
  · rw [if_pos ht]
  · rw [if_neg ht, hc, hframe]
    simp

/-- C8 (witness). -/
theorem C8_empty_frame_noop_witness :
    (last_packet_state.complete = false ∧ empty_frame.samples = 0) ∧
    wait_for_silence_callback last_packet_state empty_frame SWITCH_ABC_TYPE_READ_REPLACE =
      { ret := true, wfs := last_packet_state, event := none } :=
  ⟨by decide, C8_empty_frame_noop last_packet_state empty_frame
    SWITCH_ABC_TYPE_READ_REPLACE (by decide) (by decide)⟩

/-- C9: on a complete detector every read-replace frame, empty or not, changes no
field of the state, fires no completion event and returns SWITCH_FALSE; and
over any sequence of frames fed to any detector at most one completion event
is fired. -/
theorem C9_terminal_idempotent (s : wait_for_silence_t) (frame : switch_frame_t)
    (hc : s.complete = true) :
    wait_for_silence_callback s frame SWITCH_ABC_TYPE_READ_REPLACE =
      { ret := false, wfs := s, event := none } ∧
    (∀ (s0 : wait_for_silence_t) (fs : List switch_frame_t),
      (feed_trace s0 fs).countP (fun r => r.event.isSome) ≤ 1) :=
  ⟨callback_complete s frame hc, feed_trace_events_le_one⟩

/-- C9 (witness). -/
theorem C9_terminal_idempotent_witness :
    completed_state.complete = true ∧
    (wait_for_silence_callback completed_state quiet_frame SWITCH_ABC_TYPE_READ_REPLACE =
      { ret := false, wfs := completed_state, event := none } ∧
    (∀ (s0 : wait_for_silence_t) (fs : List switch_frame_t),
      (feed_trace s0 fs).countP (fun r => r.event.isSome) ≤ 1)) :=
  ⟨by decide, C9_terminal_idempotent completed_state quiet_frame (by decide)⟩


theorem budget_after_zero (spp : Int) (n : Nat) : budget_after 0 spp n = 0 := by
  induction n with
  | zero => rfl
  | succ n ih => simp only [budget_after]; simpa using ih

theorem budget_lasts_zero (spp : Int) (n : Nat) : budget_lasts 0 spp n = true := by
  cases n <;> simp [budget_lasts]

theorem budget_after_succ (sc spp : Int) (n : Nat) :
    budget_after sc spp (n + 1) = budget_after (budget_after sc spp 1) spp n := by
  simp only [budget_after]

theorem budget_after_add (sc spp : Int) (a b : Nat) :
    budget_after sc spp (a + b) = budget_after (budget_after sc spp a) spp b := by
  induction a generalizing sc with
  | zero => simp [budget_after]
  | succ a ih =>
    rw [show a + 1 + b = (a + b) + 1 by omega, budget_after_succ, ih,
      budget_after_succ sc spp a]

theorem budget_lasts_succ (sc spp : Int) (n : Nat)
    (h : budget_lasts sc spp (n + 1) = true) :
    (sc = 0 ∨ 0 < to_int32 (sc - spp)) ∧
      budget_lasts (budget_after sc spp 1) spp n = true := by
  simp only [budget_lasts, budget_after] at h ⊢
  by_cases h0 : sc = 0
  · subst h0
    exact ⟨Or.inl rfl, by simpa using budget_lasts_zero spp n⟩
  · rw [if_neg h0] at h
    simp only [Bool.and_eq_true, decide_eq_true_eq] at h
    refine ⟨Or.inr h.1, ?_⟩
    simpa [h0] using h.2

theorem budget_lasts_add (sc spp : Int) (a b : Nat)
    (h : budget_lasts sc spp (a + b) = true) :
    budget_lasts sc spp a = true ∧
      budget_lasts (budget_after sc spp a) spp b = true := by
  induction a generalizing sc with
  | zero => simpa [budget_lasts, budget_after] using h
  | succ a ih =>
    rw [show a + 1 + b = (a + b) + 1 by omega] at h
    obtain ⟨h1, h2⟩ := budget_lasts_succ sc spp (a + b) h
    obtain ⟨h3, h4⟩ := ih _ h2
    refine ⟨?_, ?_⟩
    · simp only [budget_lasts]
      by_cases h0 : sc = 0
      · simp [h0]
      · rcases h1 with h1 | h1
        · exact absurd h1 h0
        · simp only [budget_after, ne_eq, h0, not_false_eq_true, if_true] at h3
          simp [h0, h1, h3]
    · rw [budget_after_succ]; exact h4

theorem callback_decrement_eq (s : wait_for_silence_t) :
    callback_decrement s =
      { s with sample_count := budget_after s.sample_count s.samples_per_packet 1 } := by
  unfold callback_decrement budget_after budget_after
  split <;> rfl

/-- A Voiced frame within budget. -/
theorem callback_voiced (s : wait_for_silence_t) (f : switch_frame_t)
    (hc : s.complete = false) (hf : f.samples ≠ 0)
    (hv : frame_class s f = VOICED)
    (hb : s.sample_count = 0 ∨ 0 < to_int32 (s.sample_count - s.samples_per_packet)) :
    wait_for_silence_callback s f SWITCH_ABC_TYPE_READ_REPLACE =
      { ret := true
        wfs := { s with
          sample_count := budget_after s.sample_count s.samples_per_packet 1
          listening := uint32_inc s.listening
          silence_hits := s.org_silence_hits }
        event := none } := by
  rw [callback_live s f hc hf hb, hv, hysteresis_voiced, callback_decrement_eq]

/-- A BadFrame frame within budget. -/
theorem callback_badframe (s : wait_for_silence_t) (f : switch_frame_t)
    (hc : s.complete = false) (hf : f.samples ≠ 0)
    (hv : frame_class s f = BADFRAME)
    (hb : s.sample_count = 0 ∨ 0 < to_int32 (s.sample_count - s.samples_per_packet)) :
    wait_for_silence_callback s f SWITCH_ABC_TYPE_READ_REPLACE =
      { ret := true
        wfs := { s with
          sample_count := budget_after s.sample_count s.samples_per_packet 1
          silence_hits := s.org_silence_hits }
        event := none } := by
  rw [callback_live s f hc hf hb, hv, hysteresis_badframe, callback_decrement_eq]

/-- A Silence frame within budget on a detector that is not primed. -/
theorem callback_silence_unprimed (s : wait_for_silence_t) (f : switch_frame_t)
    (hc : s.complete = false) (hf : f.samples ≠ 0)
    (hv : frame_class s f = SILENCE)
    (hb : s.sample_count = 0 ∨ 0 < to_int32 (s.sample_count - s.samples_per_packet))
    (hl : s.listening ≤ s.listen_hits) :
    wait_for_silence_callback s f SWITCH_ABC_TYPE_READ_REPLACE =
      { ret := true
        wfs := { s with
          sample_count := budget_after s.sample_count s.samples_per_packet 1
          silence_hits := s.org_silence_hits }
        event := none } := by
  rw [callback_live s f hc hf hb, hv,
    hysteresis_silence_unprimed _ (by simpa using hl), callback_decrement_eq]

/-- A Silence frame within budget on a primed detector with more than one
silence hit remaining. -/
theorem callback_silence_count (s : wait_for_silence_t) (f : switch_frame_t)
    (hc : s.complete = false) (hf : f.samples ≠ 0)
    (hv : frame_class s f = SILENCE)
    (hb : s.sample_count = 0 ∨ 0 < to_int32 (s.sample_count - s.samples_per_packet))
    (hl : s.listen_hits < s.listening) (h1 : s.silence_hits ≠ 1) :
    wait_for_silence_callback s f SWITCH_ABC_TYPE_READ_REPLACE =
      { ret := true
        wfs := { s with
          sample_count := budget_after s.sample_count s.samples_per_packet 1
          silence_hits := uint32_dec s.silence_hits }
        event := none } := by
  rw [callback_live s f hc hf hb, hv,
    hysteresis_silence_count _ (by simpa using hl) (by simpa using h1),
    callback_decrement_eq]

/-- A Silence frame within budget on a primed detector with one silence hit
remaining. -/
theorem callback_silence_detect (s : wait_for_silence_t) (f : switch_frame_t)
    (hc : s.complete = false) (hf : f.samples ≠ 0)
    (hv : frame_class s f = SILENCE)
    (hb : s.sample_count = 0 ∨ 0 < to_int32 (s.sample_count - s.samples_per_packet))
    (hl : s.listen_hits < s.listening) (h1 : s.silence_hits = 1) :
    wait_for_silence_callback s f SWITCH_ABC_TYPE_READ_REPLACE =
      { ret := false
        wfs := { s with
          sample_count := budget_after s.sample_count s.samples_per_packet 1
          silence_hits := 0
          silence_detected := true
          complete := true
          channel := { s.channel with
            wait_for_silence_timeout := some false
            wait_for_silence_bug_ := false } }
        event := some true } := by
  rw [callback_live s f hc hf hb, hv,
    hysteresis_silence_detect _ (by simpa using hl) (by simpa using h1),
    callback_decrement_eq]


/-- A run of Voiced frames within budget. -/
theorem feed_voiced (vs : List switch_frame_t) :
    ∀ s : wait_for_silence_t, s.complete = false →
      s.listening < 4294967296 → s.silence_hits = s.org_silence_hits →
      (∀ f ∈ vs, f.samples ≠ 0 ∧ frame_class s f = VOICED) →
      budget_lasts s.sample_count s.samples_per_packet vs.length = true →
      feed_all s vs =
        { s with
          sample_count := budget_after s.sample_count s.samples_per_packet vs.length
          listening := (s.listening + vs.length) % 4294967296 } ∧
      (feed_trace s vs).map (fun r => (r.ret, r.event)) =
        List.replicate vs.length (true, none) := by
  induction vs with
  | nil =>
    intro s _ hl _ _ _
    refine ⟨?_, rfl⟩
    simp only [feed_all, List.length_nil, Nat.add_zero, budget_after]
    rw [Nat.mod_eq_of_lt hl]
  | cons f vs ih =>
    intro s hc hl hsh hv hb
    obtain ⟨hf, hfv⟩ := hv f (List.mem_cons_self _ _)
    rw [List.length_cons] at hb
    obtain ⟨hb1, hb2⟩ := budget_lasts_succ _ _ _ hb
    have hstep := callback_voiced s f hc hf hfv hb1
    have hnext := ih
      { s with
        sample_count := budget_after s.sample_count s.samples_per_packet 1
        listening := uint32_inc s.listening
        silence_hits := s.org_silence_hits }
      hc (Nat.mod_lt _ (by decide)) rfl
      (fun g hg => hv g (List.mem_cons_of_mem _ hg)) hb2
    simp only [feed_all, feed_trace, hstep, List.map_cons, List.length_cons,
      List.replicate_succ]
    refine ⟨?_, ?_⟩
    · rw [hnext.1]
      rw [budget_after_succ s.sample_count s.samples_per_packet vs.length]
      simp only [uint32_inc]
      have harith : ((s.listening + 1) % 4294967296 + vs.length) % 4294967296 =
          (s.listening + (vs.length + 1)) % 4294967296 := by omega
      rw [harith, hsh]
    · rw [hnext.2]

/-- A run of Silence frames within budget on a primed detector, shorter than
the number of silence hits remaining. -/
theorem feed_silence_count (ss : List switch_frame_t) :
    ∀ s : wait_for_silence_t, s.complete = false →
      s.listen_hits < s.listening → ss.length < s.silence_hits →
      (∀ f ∈ ss, f.samples ≠ 0 ∧ frame_class s f = SILENCE) →
      budget_lasts s.sample_count s.samples_per_packet ss.length = true →
      feed_all s ss =
        { s with
          sample_count := budget_after s.sample_count s.samples_per_packet ss.length
          silence_hits := s.silence_hits - ss.length } ∧
      (feed_trace s ss).map (fun r => (r.ret, r.event)) =
        List.replicate ss.length (true, none) := by
  induction ss with
  | nil =>
    intro s _ _ _ _ _
    exact ⟨rfl, rfl⟩
  | cons f ss ih =>
    intro s hc hl hlen hv hb
    obtain ⟨hf, hfv⟩ := hv f (List.mem_cons_self _ _)
    rw [List.length_cons] at hb hlen
    obtain ⟨hb1, hb2⟩ := budget_lasts_succ _ _ _ hb
    have hstep := callback_silence_count s f hc hf hfv hb1 hl (by omega)
    have hdec : uint32_dec s.silence_hits = s.silence_hits - 1 := by
      unfold uint32_dec; rw [if_neg (by omega)]
    have hnext := ih
      { s with
        sample_count := budget_after s.sample_count s.samples_per_packet 1
        silence_hits := uint32_dec s.silence_hits }
      hc hl (by show ss.length < uint32_dec s.silence_hits; rw [hdec]; omega)
      (fun g hg => hv g (List.mem_cons_of_mem _ hg)) hb2
    simp only [feed_all, feed_trace, hstep, List.map_cons, List.length_cons,
      List.replicate_succ]
    refine ⟨?_, ?_⟩
    · rw [hnext.1]
      rw [budget_after_succ s.sample_count s.samples_per_packet ss.length]
      simp only [hdec]
      rw [show s.silence_hits - 1 - ss.length = s.silence_hits - (ss.length + 1) by omega]
    · rw [hnext.2]

/-- A run of Silence frames within budget on a detector that is not primed. -/
theorem feed_silence_unprimed (ss : List switch_frame_t) :
    ∀ s : wait_for_silence_t, s.complete = false →
      s.listening ≤ s.listen_hits → s.silence_hits = s.org_silence_hits →
      (∀ f ∈ ss, f.samples ≠ 0 ∧ frame_class s f = SILENCE) →
      budget_lasts s.sample_count s.samples_per_packet ss.length = true →
      feed_all s ss =
        { s with
          sample_count := budget_after s.sample_count s.samples_per_packet ss.length } ∧
      (feed_trace s ss).map (fun r => (r.ret, r.event)) =
        List.replicate ss.length (true, none) := by
  induction ss with
  | nil =>
    intro s _ _ _ _ _
    exact ⟨rfl, rfl⟩
  | cons f ss ih =>
    intro s hc hl hsh hv hb
    obtain ⟨hf, hfv⟩ := hv f (List.mem_cons_self _ _)
    rw [List.length_cons] at hb
    obtain ⟨hb1, hb2⟩ := budget_lasts_succ _ _ _ hb
    have hstep := callback_silence_unprimed s f hc hf hfv hb1 hl
    have hnext := ih
      { s with
        sample_count := budget_after s.sample_count s.samples_per_packet 1
        silence_hits := s.org_silence_hits }
      hc hl rfl
      (fun g hg => hv g (List.mem_cons_of_mem _ hg)) hb2
    simp only [feed_all, feed_trace, hstep, List.map_cons, List.length_cons,
      List.replicate_succ]
    refine ⟨?_, ?_⟩
    · rw [hnext.1]
      rw [budget_after_succ s.sample_count s.samples_per_packet ss.length, hsh]
    · rw [hnext.2]

/-- The state that a successful `wait_for_silence_start` attaches. -/
theorem start_some (session : Option switch_core_session_t)
    (silence_threshold silence_hits listen_hits timeout_ms : Nat)
    (s : wait_for_silence_t)
    (h : wait_for_silence_start session silence_threshold silence_hits listen_hits
      timeout_ms = some s) :
    s.listening = 0 ∧ s.org_silence_hits = silence_hits ∧
    s.silence_hits = silence_hits ∧ s.listen_hits = listen_hits ∧
    s.silence_threshold = silence_threshold ∧ s.complete = false ∧
    s.silence_detected = false ∧
    (-2147483648 ≤ s.sample_count ∧ s.sample_count < 2147483648) ∧
    (-2147483648 ≤ s.samples_per_packet ∧ s.samples_per_packet < 2147483648) := by
  unfold wait_for_silence_start at h
  cases session with
  | none => simp at h
  | some session =>
    cases hr : session.read_impl with
    | none => simp [hr] at h
    | some read_impl =>
      simp only [hr] at h
      split_ifs at h
      injection h with h
      subst h
      exact ⟨rfl, rfl, rfl, rfl, rfl, rfl, rfl, to_int32_range _, to_int32_range _⟩


/-- Voiced frames followed by exactly as many Silence frames as there are
silence hits, on a detector that the Voiced frames prime. -/
theorem feed_voiced_then_silence (s : wait_for_silence_t)
    (vs ss : List switch_frame_t)
    (hc : s.complete = false) (hl32 : s.listening + vs.length < 4294967296)
    (hsh : s.silence_hits = s.org_silence_hits) (hS : 1 ≤ s.org_silence_hits)
    (hprime : s.listen_hits < s.listening + vs.length)
    (hv : ∀ f ∈ vs, f.samples ≠ 0 ∧ frame_class s f = VOICED)
    (hslen : ss.length = s.org_silence_hits)
    (hsil : ∀ f ∈ ss, f.samples ≠ 0 ∧ frame_class s f = SILENCE)
    (hb : budget_lasts s.sample_count s.samples_per_packet
      (vs.length + ss.length) = true) :
    (feed_trace s (vs ++ ss)).map (fun r => (r.ret, r.event)) =
      List.replicate (vs.length + (ss.length - 1)) (true, none) ++ [(false, some true)] ∧
    feed_all s (vs ++ ss) =
      { s with
        sample_count :=
          budget_after s.sample_count s.samples_per_packet (vs.length + ss.length)
        listening := s.listening + vs.length
        silence_hits := 0
        silence_detected := true
        complete := true
        channel := { s.channel with
          wait_for_silence_timeout := some false
          wait_for_silence_bug_ := false } } := by
  obtain ⟨hbv, hbs⟩ := budget_lasts_add _ _ _ _ hb
  obtain ⟨hv1, hv2⟩ := feed_voiced vs s hc (by omega) hsh hv hbv
  rw [Nat.mod_eq_of_lt hl32] at hv1
  -- split the Silence frames into all but the last, and the last
  have hne : ss ≠ [] := by
    intro h
    rw [h, List.length_nil] at hslen
    omega
  obtain ⟨ss0, g, rfl⟩ : ∃ ss0 g, ss = ss0 ++ [g] :=
    ⟨ss.dropLast, ss.getLast hne, (List.dropLast_append_getLast hne).symm⟩
  have hlen0 : ss0.length + 1 = s.org_silence_hits := by
    rw [← hslen, List.length_append, List.length_singleton]
  rw [List.length_append, List.length_singleton] at hbs
  obtain ⟨hb0, hbg⟩ := budget_lasts_add _ _ _ _ hbs
  obtain ⟨hbg1, -⟩ := budget_lasts_succ _ _ 0 hbg
  have hs0 := feed_silence_count ss0
    { s with
      sample_count := budget_after s.sample_count s.samples_per_packet vs.length
      listening := s.listening + vs.length }
    hc hprime (by show ss0.length < s.silence_hits; omega)
    (fun f hf => hsil f (List.mem_append_left _ hf)) hb0
  obtain ⟨hs1, hs2⟩ := hs0
  obtain ⟨hg1, hg2⟩ := hsil g (List.mem_append_right _ (List.mem_singleton_self g))
  have hlast := callback_silence_detect
    { s with
      sample_count := budget_after (budget_after s.sample_count s.samples_per_packet
        vs.length) s.samples_per_packet ss0.length
      listening := s.listening + vs.length
      silence_hits := s.silence_hits - ss0.length }
    g hc hg1 hg2 hbg1 hprime (by show s.silence_hits - ss0.length = 1; omega)
  refine ⟨?_, ?_⟩
  · rw [feed_trace_append, feed_trace_append, List.map_append, List.map_append, hv2,
      hv1, hs1, hs2]
    simp only [feed_trace, hlast, List.map_cons, List.map_nil, List.length_append,
      List.length_singleton, Nat.add_sub_cancel]
    rw [← List.append_assoc, ← List.replicate_add]
  · rw [feed_all_append, feed_all_append, hv1, hs1]
    simp only [feed_all, hlast]
    rw [List.length_append, List.length_singleton, ← Nat.add_assoc,
      budget_after_succ s.sample_count s.samples_per_packet (vs.length + ss0.length),
      ← budget_after_succ, ← budget_after_add, ← budget_after_add]
    rfl


/-- C3 (as stated, refuted): with listen_hits 4294967295 the counter
`listening` wraps to 0 on the 4294967296-th Voiced frame, so after
listen_hits + 1 Voiced frames and silence_hits = 1 Silence frame the detector
is still pending (timeout_ms 0 keeps the budget from running out). -/
theorem C3_listening_wraps_at_max_listen_hits :
    wait_for_silence_start (some session8k) 256 1 4294967295 0 = some wrap_state ∧
    (voice_frame.samples ≠ 0 ∧ frame_class wrap_state voice_frame = VOICED) ∧
    (quiet_frame.samples ≠ 0 ∧ frame_class wrap_state quiet_frame = SILENCE) ∧
    budget_lasts wrap_state.sample_count wrap_state.samples_per_packet 4294967297 = true ∧
    (feed_all wrap_state
      (List.replicate 4294967296 voice_frame ++ [quiet_frame])).listening = 0 ∧
    (feed_all wrap_state
      (List.replicate 4294967296 voice_frame ++ [quiet_frame])).complete = false ∧
    (feed_all wrap_state
      (List.replicate 4294967296 voice_frame ++ [quiet_frame])).silence_detected = false := by
  have hv : voice_frame.samples ≠ 0 ∧ frame_class wrap_state voice_frame = VOICED := by
    decide
  have hq : quiet_frame.samples ≠ 0 ∧ frame_class wrap_state quiet_frame = SILENCE := by
    decide
  have hrun := (feed_voiced (List.replicate 4294967296 voice_frame) wrap_state rfl
    (by decide) rfl
    (fun f hf => by rw [List.eq_of_mem_replicate hf]; exact hv)
    (budget_lasts_zero _ _)).1
  rw [List.length_replicate] at hrun
  have hbud : budget_after wrap_state.sample_count wrap_state.samples_per_packet
      4294967296 = 0 := budget_after_zero _ _
  have hlis : (wrap_state.listening + 4294967296) % 4294967296 = 0 := by decide
  rw [hbud, hlis] at hrun
  have hstep := callback_silence_unprimed
    { wrap_state with sample_count := 0, listening := 0 } quiet_frame rfl hq.1 hq.2
    (Or.inl rfl) (by decide)
  have hfinal : feed_all wrap_state
      (List.replicate 4294967296 voice_frame ++ [quiet_frame]) =
      { wrap_state with sample_count := 0, listening := 0 } := by
    rw [feed_all_append, hrun]
    simp only [feed_all, hstep]
    rfl
  refine ⟨by decide, hv, hq, budget_lasts_zero _ _, ?_, ?_, ?_⟩
  · rw [hfinal]
  · rw [hfinal]; rfl
  · rw [hfinal]; rfl

/-- C3 (amended): for every listen_hits L with L + 1 < 2 ^ 32 and every
silence_hits S >= 1, on a freshly started detector whose sample budget lasts
for L + 1 + S frames, L + 1 Voiced frames followed by S Silence frames return
SWITCH_TRUE without an event on each of the first L + S frames and complete
with SilenceDetected on the last one, with listening equal to L + 1. -/
theorem C3_sustained_silence_detected (session : Option switch_core_session_t)
    (silence_threshold silence_hits listen_hits timeout_ms : Nat)
    (s : wait_for_silence_t) (vs ss : List switch_frame_t)
    (hstart : wait_for_silence_start session silence_threshold silence_hits listen_hits
      timeout_ms = some s)
    (hS : 1 ≤ silence_hits) (hL : listen_hits + 1 < 4294967296)
    (hvlen : vs.length = listen_hits + 1)
    (hv : ∀ f ∈ vs, f.samples ≠ 0 ∧ frame_class s f = VOICED)
    (hslen : ss.length = silence_hits)
    (hsil : ∀ f ∈ ss, f.samples ≠ 0 ∧ frame_class s f = SILENCE)
    (hb : budget_lasts s.sample_count s.samples_per_packet
      (listen_hits + 1 + silence_hits) = true) :
    feed_outcomes s (vs ++ ss) =
      List.replicate (listen_hits + silence_hits) (true, none) ++ [(false, some true)] ∧
    (feed_all s (vs ++ ss)).listening = listen_hits + 1 ∧
    (feed_all s (vs ++ ss)).silence_hits = 0 ∧
    (feed_all s (vs ++ ss)).complete = true ∧
    (feed_all s (vs ++ ss)).silence_detected = true ∧
    (feed_all s (vs ++ ss)).channel.wait_for_silence_timeout = some false := by
  obtain ⟨h1, h2, h3, h4, -, h6, -, -, -⟩ := start_some _ _ _ _ _ _ hstart
  obtain ⟨ht, hs⟩ := feed_voiced_then_silence s vs ss h6
    (by rw [h1, hvlen]; omega) (by rw [h2, h3]) (by rw [h2]; exact hS)
    (by rw [h1, h4, hvlen]; omega) hv (by rw [h2]; exact hslen) hsil
    (by rw [hvlen, hslen]; exact hb)
  refine ⟨?_, ?_, ?_, ?_, ?_, ?_⟩
  · unfold feed_outcomes
    rw [ht, hvlen, hslen, show listen_hits + 1 + (silence_hits - 1) =
      listen_hits + silence_hits by omega]
  · rw [hs]; show s.listening + vs.length = listen_hits + 1; rw [h1, hvlen]; omega
  · rw [hs]
  · rw [hs]
  · rw [hs]
  · rw [hs]

/-- C3 (witness): listen_hits 2, silence_hits 3, three Voiced frames and three
Silence frames. -/
theorem C3_sustained_silence_detected_witness :
    (wait_for_silence_start (some session8k) 256 3 2 60000 = some started_state ∧
      (∀ f ∈ [voice_frame, voice_frame, voice_frame],
        f.samples ≠ 0 ∧ frame_class started_state f = VOICED) ∧
      (∀ f ∈ [quiet_frame, quiet_frame, quiet_frame],
        f.samples ≠ 0 ∧ frame_class started_state f = SILENCE) ∧
      budget_lasts started_state.sample_count started_state.samples_per_packet
        (2 + 1 + 3) = true) ∧
    (feed_outcomes started_state
        ([voice_frame, voice_frame, voice_frame] ++ [quiet_frame, quiet_frame, quiet_frame]) =
      List.replicate (2 + 3) (true, none) ++ [(false, some true)] ∧
    (feed_all started_state
      ([voice_frame, voice_frame, voice_frame] ++
        [quiet_frame, quiet_frame, quiet_frame])).listening = 2 + 1 ∧
    (feed_all started_state
      ([voice_frame, voice_frame, voice_frame] ++
        [quiet_frame, quiet_frame, quiet_frame])).silence_hits = 0 ∧
    (feed_all started_state
      ([voice_frame, voice_frame, voice_frame] ++
        [quiet_frame, quiet_frame, quiet_frame])).complete = true ∧
    (feed_all started_state
      ([voice_frame, voice_frame, voice_frame] ++
        [quiet_frame, quiet_frame, quiet_frame])).silence_detected = true ∧
    (feed_all started_state
      ([voice_frame, voice_frame, voice_frame] ++
        [quiet_frame, quiet_frame, quiet_frame])).channel.wait_for_silence_timeout =
      some false) :=
  ⟨⟨by decide, by decide, by decide, by decide⟩,
    C3_sustained_silence_detected (some session8k) 256 3 2 60000 started_state
      [voice_frame, voice_frame, voice_frame] [quiet_frame, quiet_frame, quiet_frame]
      (by decide) (by decide) (by decide) (by decide) (by decide) (by decide)
      (by decide) (by decide)⟩


/-- A Voiced frame on a primed detector followed by exactly as many Silence
frames as the configuration asks for. -/
theorem feed_interrupt_then_silence (s : wait_for_silence_t)
    (v : switch_frame_t) (ss : List switch_frame_t)
    (hc : s.complete = false) (hprimed : s.listen_hits < s.listening)
    (hl32 : s.listening + 1 < 4294967296) (hS : 1 ≤ s.org_silence_hits)
    (hv : v.samples ≠ 0 ∧ frame_class s v = VOICED)
    (hslen : ss.length = s.org_silence_hits)
    (hsil : ∀ f ∈ ss, f.samples ≠ 0 ∧ frame_class s f = SILENCE)
    (hb : budget_lasts s.sample_count s.samples_per_packet (1 + ss.length) = true) :
    (feed_trace s (v :: ss)).map (fun r => (r.ret, r.event)) =
      List.replicate ss.length (true, none) ++ [(false, some true)] ∧
    (feed_all s (v :: ss)).complete = true ∧
    (feed_all s (v :: ss)).silence_detected = true ∧
    (feed_all s (v :: ss)).listening = s.listening + 1 := by
  obtain ⟨hb1, hb2⟩ := budget_lasts_add _ _ _ _ hb
  obtain ⟨hb1', -⟩ := budget_lasts_succ _ _ 0 hb1
  have hstep := callback_voiced s v hc hv.1 hv.2 hb1'
  have hinc : uint32_inc s.listening = s.listening + 1 := by
    unfold uint32_inc; exact Nat.mod_eq_of_lt hl32
  obtain ⟨ht, hs⟩ := feed_voiced_then_silence
    { s with
      sample_count := budget_after s.sample_count s.samples_per_packet 1
      listening := uint32_inc s.listening
      silence_hits := s.org_silence_hits }
    [] ss hc
    (by show uint32_inc s.listening + 0 < 4294967296; rw [hinc]; omega)
    rfl hS
    (by show s.listen_hits < uint32_inc s.listening + 0; rw [hinc]; omega)
    (by intro f hf; cases hf) hslen hsil
    (by rw [List.length_nil, Nat.zero_add]; exact hb2)
  rw [List.nil_append] at ht hs
  rw [List.length_nil, Nat.zero_add] at ht
  simp only [feed_trace, feed_all, hstep, List.map_cons]
  refine ⟨?_, ?_, ?_, ?_⟩
  · rw [ht]
    have hpos : 1 ≤ ss.length := by omega
    obtain ⟨n, hn⟩ : ∃ n, ss.length = n + 1 := ⟨ss.length - 1, by omega⟩
    rw [hn, Nat.add_sub_cancel, List.replicate_succ, List.cons_append]
  · rw [hs]
  · rw [hs]
  · rw [hs]; show uint32_inc s.listening + 0 = s.listening + 1; rw [hinc]

/-- A Voiced frame followed by fewer Silence frames than the configuration asks
for never completes. -/
theorem feed_interrupt_short (s : wait_for_silence_t)
    (v : switch_frame_t) (ss : List switch_frame_t)
    (hc : s.complete = false)
    (hv : v.samples ≠ 0 ∧ frame_class s v = VOICED)
    (hslen : ss.length < s.org_silence_hits)
    (hsil : ∀ f ∈ ss, f.samples ≠ 0 ∧ frame_class s f = SILENCE)
    (hb : budget_lasts s.sample_count s.samples_per_packet (1 + ss.length) = true) :
    (feed_trace s (v :: ss)).map (fun r => (r.ret, r.event)) =
      List.replicate (ss.length + 1) (true, none) ∧
    (feed_all s (v :: ss)).complete = false ∧
    (feed_all s (v :: ss)).silence_detected = s.silence_detected := by
  obtain ⟨hb1, hb2⟩ := budget_lasts_add _ _ _ _ hb
  obtain ⟨hb1', -⟩ := budget_lasts_succ _ _ 0 hb1
  have hstep := callback_voiced s v hc hv.1 hv.2 hb1'
  simp only [feed_trace, feed_all, hstep, List.map_cons, List.replicate_succ]
  by_cases hp : s.listen_hits < uint32_inc s.listening
  · obtain ⟨hs, ht⟩ := feed_silence_count ss
      { s with
        sample_count := budget_after s.sample_count s.samples_per_packet 1
        listening := uint32_inc s.listening
        silence_hits := s.org_silence_hits }
      hc hp hslen hsil hb2
    rw [ht, hs]
    exact ⟨rfl, hc, rfl⟩
  · obtain ⟨hs, ht⟩ := feed_silence_unprimed ss
      { s with
        sample_count := budget_after s.sample_count s.samples_per_packet 1
        listening := uint32_inc s.listening
        silence_hits := s.org_silence_hits }
      hc (by show uint32_inc s.listening ≤ s.listen_hits; omega) rfl hsil hb2
    rw [ht, hs]
    exact ⟨rfl, hc, rfl⟩

/-- C4: on a pending, primed detector with silence_hits S >= 1, a Voiced frame
within budget returns SWITCH_TRUE and sets silence_hits back to S, whatever
the count had come down to; any following run of fewer than S Silence frames
does not complete, and (unless `listening` wraps) a following run of exactly S
Silence frames completes with SilenceDetected on its last frame and no
earlier.  With listen_hits 2 and silence_hits 3, the sequence 3 Voiced,
2 Silence, 1 Voiced, 3 Silence on a freshly started detector returns
SWITCH_TRUE without an event on the first eight frames and completes with
SilenceDetected on the ninth. -/
theorem C4_interruption_resets_countdown (s : wait_for_silence_t)
    (frame : switch_frame_t) (ss : List switch_frame_t)
    (hc : s.complete = false) (hprimed : s.listen_hits < s.listening)
    (hS : 1 ≤ s.org_silence_hits)
    (hframe : frame.samples ≠ 0) (hv : frame_class s frame = VOICED)
    (hsil : ∀ f ∈ ss, f.samples ≠ 0 ∧ frame_class s f = SILENCE)
    (hb : budget_lasts s.sample_count s.samples_per_packet (1 + ss.length) = true) :
    ((wait_for_silence_callback s frame SWITCH_ABC_TYPE_READ_REPLACE).ret = true ∧
      (wait_for_silence_callback s frame SWITCH_ABC_TYPE_READ_REPLACE).event = none ∧
      (wait_for_silence_callback s frame SWITCH_ABC_TYPE_READ_REPLACE).wfs.complete = false ∧
      (wait_for_silence_callback s frame SWITCH_ABC_TYPE_READ_REPLACE).wfs.silence_hits =
        s.org_silence_hits) ∧
    (ss.length < s.org_silence_hits →
      feed_outcomes s (frame :: ss) = List.replicate (ss.length + 1) (true, none) ∧
      (feed_all s (frame :: ss)).complete = false) ∧
    (ss.length = s.org_silence_hits → s.listening + 1 < 4294967296 →
      feed_outcomes s (frame :: ss) =
        List.replicate ss.length (true, none) ++ [(false, some true)] ∧
      (feed_all s (frame :: ss)).complete = true ∧
      (feed_all s (frame :: ss)).silence_detected = true) ∧
    (∀ (session : Option switch_core_session_t) (silence_threshold timeout_ms : Nat)
      (s0 : wait_for_silence_t) (vs1 ss1 ss2 : List switch_frame_t) (v : switch_frame_t),
      wait_for_silence_start session silence_threshold 3 2 timeout_ms = some s0 →
      vs1.length = 3 → (∀ f ∈ vs1, f.samples ≠ 0 ∧ frame_class s0 f = VOICED) →
      ss1.length = 2 → (∀ f ∈ ss1, f.samples ≠ 0 ∧ frame_class s0 f = SILENCE) →
      (v.samples ≠ 0 ∧ frame_class s0 v = VOICED) →
      ss2.length = 3 → (∀ f ∈ ss2, f.samples ≠ 0 ∧ frame_class s0 f = SILENCE) →
      budget_lasts s0.sample_count s0.samples_per_packet 9 = true →
      feed_outcomes s0 (vs1 ++ ss1 ++ v :: ss2) =
        List.replicate 8 (true, none) ++ [(false, some true)] ∧
      (feed_all s0 (vs1 ++ ss1 ++ v :: ss2)).silence_detected = true) := by
  refine ⟨?_, ?_, ?_, ?_⟩
  · obtain ⟨hb1, -⟩ := budget_lasts_add _ _ _ _ hb
    obtain ⟨hb1', -⟩ := budget_lasts_succ _ _ 0 hb1
    rw [callback_voiced s frame hc hframe hv hb1']
    exact ⟨rfl, rfl, hc, rfl⟩
  · intro hlen
    obtain ⟨h1, h2, -⟩ := feed_interrupt_short s frame ss hc ⟨hframe, hv⟩ hlen hsil hb
    exact ⟨h1, h2⟩
  · intro hlen hl32
    obtain ⟨h1, h2, h3, -⟩ := feed_interrupt_then_silence s frame ss hc hprimed hl32 hS
      ⟨hframe, hv⟩ hlen hsil hb
    exact ⟨h1, h2, h3⟩
  · intro session silence_threshold timeout_ms s0 vs1 ss1 ss2 v hstart hl1 hv1 hl2 hs1
      hv2 hl3 hs2 hb9
    obtain ⟨h1, h2, h3, h4, -, h6, -, -, -⟩ := start_some _ _ _ _ _ _ hstart
    obtain ⟨hbA, hbB⟩ := budget_lasts_add s0.sample_count s0.samples_per_packet 3 6 hb9
    obtain ⟨hbB1, hbB2⟩ := budget_lasts_add _ s0.samples_per_packet 2 4 hbB
    obtain ⟨hA1, hA2⟩ := feed_voiced vs1 s0 h6 (by rw [h1]; decide) (by rw [h2, h3]) hv1
      (by rw [hl1]; exact hbA)
    rw [hl1, h1] at hA1
    rw [hl1] at hA2
    have hB := feed_silence_count ss1
      { s0 with
        sample_count := budget_after s0.sample_count s0.samples_per_packet 3
        listening := (0 + 3) % 4294967296 }
      h6 (by show s0.listen_hits < (0 + 3) % 4294967296; rw [h4]; decide)
      (by show ss1.length < s0.silence_hits; rw [hl2, h3]; decide) hs1
      (by rw [hl2]; exact hbB1)
    rw [hl2] at hB
    have hB1 : feed_all
        { s0 with
          sample_count := budget_after s0.sample_count s0.samples_per_packet 3
          listening := (0 + 3) % 4294967296 } ss1 =
        { s0 with
          sample_count := budget_after (budget_after s0.sample_count
            s0.samples_per_packet 3) s0.samples_per_packet 2
          listening := (0 + 3) % 4294967296
          silence_hits := s0.silence_hits - 2 } := hB.1
    have hB2 := hB.2
    obtain ⟨hC1, hC2, hC3, -⟩ := feed_interrupt_then_silence
      { s0 with
        sample_count := budget_after (budget_after s0.sample_count s0.samples_per_packet 3)
          s0.samples_per_packet 2
        listening := (0 + 3) % 4294967296
        silence_hits := s0.silence_hits - 2 }
      v ss2 h6 (by show s0.listen_hits < (0 + 3) % 4294967296; rw [h4]; decide)
      (by show (0 + 3) % 4294967296 + 1 < 4294967296; decide)
      (by show 1 ≤ s0.org_silence_hits; rw [h2]; decide) hv2
      (by rw [hl3]; exact h2.symm) hs2 (by rw [hl3]; exact hbB2)
    rw [hl3] at hC1
    refine ⟨?_, ?_⟩
    · unfold feed_outcomes
      rw [feed_trace_append, feed_trace_append, List.map_append, List.map_append,
        feed_all_append, hA1, hA2, hB1, hB2, hC1]
      rfl
    · rw [feed_all_append, feed_all_append, hA1, hB1, hC3]


/-- C4 (as stated, refuted): started with listen_hits 2, silence_hits 3 and
timeout_ms 120, the detector is pending and primed after 3 Voiced and 2
Silence frames with silence_hits 1; the Voiced frame that follows exhausts the
budget, so the callback completes with TimedOut and leaves silence_hits at 1
instead of setting it back to 3, and the 9-frame sequence never completes with
SilenceDetected. -/
theorem C4_voiced_frame_on_exhausted_budget :
    wait_for_silence_start (some session8k) 256 3 2 120 = some short_budget_state ∧
    (feed_all short_budget_state
      [voice_frame, voice_frame, voice_frame, quiet_frame, quiet_frame]).complete = false ∧
    (feed_all short_budget_state
      [voice_frame, voice_frame, voice_frame, quiet_frame, quiet_frame]).listening = 3 ∧
    (feed_all short_budget_state
      [voice_frame, voice_frame, voice_frame, quiet_frame, quiet_frame]).silence_hits = 1 ∧
    frame_class short_budget_state voice_frame = VOICED ∧
    (wait_for_silence_callback
      (feed_all short_budget_state
        [voice_frame, voice_frame, voice_frame, quiet_frame, quiet_frame])
      voice_frame SWITCH_ABC_TYPE_READ_REPLACE).wfs.silence_hits = 1 ∧
    feed_outcomes short_budget_state
      [voice_frame, voice_frame, voice_frame, quiet_frame, quiet_frame, voice_frame,
        quiet_frame, quiet_frame, quiet_frame] =
      [(true, none), (true, none), (true, none), (true, none), (true, none),
        (false, some false), (false, none), (false, none), (false, none)] := by
  decide

/-- C4 (witness): the detector after 3 Voiced and 2 Silence frames, a Voiced
frame, then 3 Silence frames. -/
theorem C4_interruption_resets_countdown_witness :
    (primed_state.complete = false ∧ primed_state.listen_hits < primed_state.listening ∧
      1 ≤ primed_state.org_silence_hits ∧ primed_state.silence_hits = 1 ∧
      voice_frame.samples ≠ 0 ∧ frame_class primed_state voice_frame = VOICED ∧
      (∀ f ∈ [quiet_frame, quiet_frame, quiet_frame],
        f.samples ≠ 0 ∧ frame_class primed_state f = SILENCE) ∧
      budget_lasts primed_state.sample_count primed_state.samples_per_packet
        (1 + [quiet_frame, quiet_frame, quiet_frame].length) = true) ∧
    (wait_for_silence_callback primed_state voice_frame
        SWITCH_ABC_TYPE_READ_REPLACE).wfs.silence_hits = 3 ∧
    feed_outcomes primed_state [voice_frame, quiet_frame, quiet_frame, quiet_frame] =
      [(true, none), (true, none), (true, none), (false, some true)] := by
  have h := C4_interruption_resets_countdown primed_state voice_frame
    [quiet_frame, quiet_frame, quiet_frame] (by decide) (by decide) (by decide)
    (by decide) (by decide) (by decide) (by decide)
  exact ⟨by decide, h.1.2.2.2, (h.2.2.1 (by decide) (by decide)).1⟩


theorem counts_as_voiced_congr (s1 s2 : wait_for_silence_t)
    (h1 : s1.read_impl = s2.read_impl)
    (h2 : s1.silence_threshold = s2.silence_threshold) :
    counts_as_voiced s1 = counts_as_voiced s2 := by
  funext f
  simp only [counts_as_voiced, frame_class, h1, h2]

/-- Every call of the callback falls under one of these cases: the detector is
already complete, the frame is empty, the budget runs out, or the frame goes
through the hysteresis step. -/
theorem callback_cases (s : wait_for_silence_t) (f : switch_frame_t) :
    (wait_for_silence_callback s f SWITCH_ABC_TYPE_READ_REPLACE =
        { ret := false, wfs := s, event := none } ∧ s.complete = true) ∨
    (wait_for_silence_callback s f SWITCH_ABC_TYPE_READ_REPLACE =
        { ret := true, wfs := s, event := none } ∧
      s.complete = false ∧ f.samples = 0) ∨
    (s.complete = false ∧ f.samples ≠ 0 ∧
      wait_for_silence_callback s f SWITCH_ABC_TYPE_READ_REPLACE =
        { ret := false
          wfs := { s with
            sample_count := to_int32 (s.sample_count - s.samples_per_packet)
            complete := true
            channel :=
              { wait_for_silence_timeout := some true
                wait_for_silence_listenhits := some (to_int32 s.listening)
                wait_for_silence_silence_hits := some (to_int32 s.silence_hits)
                wait_for_silence_bug_ := false } }
          event := some s.silence_detected } ∧
      (s.sample_count ≠ 0 ∧ to_int32 (s.sample_count - s.samples_per_packet) ≤ 0)) ∨
    (s.complete = false ∧ f.samples ≠ 0 ∧
      wait_for_silence_callback s f SWITCH_ABC_TYPE_READ_REPLACE =
        callback_hysteresis (callback_decrement s) (frame_class s f) ∧
      (s.sample_count = 0 ∨ 0 < to_int32 (s.sample_count - s.samples_per_packet))) := by
  cases hc : s.complete with
  | true => exact Or.inl ⟨callback_complete s f hc, rfl⟩
  | false =>
    by_cases hf : f.samples = 0
    · right; left
      exact ⟨by simp [wait_for_silence_callback, hc, hf], rfl, hf⟩
    · by_cases hb : s.sample_count ≠ 0 ∧
          to_int32 (s.sample_count - s.samples_per_packet) ≤ 0
      · right; right; left
        exact ⟨rfl, hf, callback_timeout s f hc hf hb.1 hb.2, hb⟩
      · right; right; right
        have hb2 : s.sample_count = 0 ∨
            0 < to_int32 (s.sample_count - s.samples_per_packet) := by
          by_cases h0 : s.sample_count = 0
          · exact Or.inl h0
          · exact Or.inr (by
              have : ¬ to_int32 (s.sample_count - s.samples_per_packet) ≤ 0 :=
                fun h => hb ⟨h0, h⟩
              omega)
        exact ⟨rfl, hf, callback_live s f hc hf hb2, hb2⟩

/-- One call on a detector that has not detected silence, whose countdown is
at its initial value, and which this frame does not prime. -/
theorem callback_unprimed (s : wait_for_silence_t) (f : switch_frame_t)
    (hsd : s.silence_detected = false) (hsh : s.silence_hits = s.org_silence_hits)
    (hl : s.listening + (if counts_as_voiced s f = true then 1 else 0) ≤ s.listen_hits) :
    (wait_for_silence_callback s f SWITCH_ABC_TYPE_READ_REPLACE).event ≠ some true ∧
    (wait_for_silence_callback s f SWITCH_ABC_TYPE_READ_REPLACE).wfs.silence_detected =
      false ∧
    (wait_for_silence_callback s f SWITCH_ABC_TYPE_READ_REPLACE).wfs.silence_hits =
      s.org_silence_hits ∧
    (wait_for_silence_callback s f SWITCH_ABC_TYPE_READ_REPLACE).wfs.listening ≤
      s.listening + (if counts_as_voiced s f = true then 1 else 0) := by
  rcases callback_cases s f with ⟨h, -⟩ | ⟨h, -⟩ | ⟨hc, hf, h, -⟩ | ⟨hc, hf, h, -⟩
  · rw [h]; exact ⟨by simp, hsd, hsh, by simp⟩
  · rw [h]; exact ⟨by simp, hsd, hsh, by simp⟩
  · rw [h]; exact ⟨by simp [hsd], hsd, hsh, by simp⟩
  · rw [h]
    cases hcl : frame_class s f with
    | VOICED =>
      have hcv : counts_as_voiced s f = true := by
        simp [counts_as_voiced, hf, hcl]
      rw [hysteresis_voiced]
      refine ⟨by simp, ?_, ?_, ?_⟩
      · simpa using hsd
      · simp
      · rw [if_pos hcv]
        show uint32_inc (callback_decrement s).listening ≤ s.listening + 1
        rw [callback_decrement_listening]
        unfold uint32_inc
        exact Nat.mod_le _ _
    | BADFRAME =>
      rw [hysteresis_badframe]
      refine ⟨by simp, ?_, ?_, ?_⟩
      · simpa using hsd
      · simp
      · simp
    | SILENCE =>
      rw [hysteresis_silence_unprimed _ (by
        rw [callback_decrement_listening, callback_decrement_listen_hits]; omega)]
      refine ⟨by simp, ?_, ?_, ?_⟩
      · simpa using hsd
      · simp
      · simp

/-- While at most `listen_hits` frames have counted as Voiced, silence is never
detected and the countdown stays at its initial value. -/
theorem feed_trace_unprimed (fs : List switch_frame_t) :
    ∀ s : wait_for_silence_t, s.silence_detected = false →
      s.silence_hits = s.org_silence_hits →
      s.listening + fs.countP (counts_as_voiced s) ≤ s.listen_hits →
      ∀ r ∈ feed_trace s fs,
        r.event ≠ some true ∧ r.wfs.silence_detected = false ∧
        r.wfs.silence_hits = s.org_silence_hits := by
  induction fs with
  | nil => intro s _ _ _ r hr; simp [feed_trace] at hr
  | cons f fs ih =>
    intro s hsd hsh hl r hr
    rw [List.countP_cons] at hl
    obtain ⟨h1, h2, h3, h4⟩ := callback_unprimed s f hsd hsh (by omega)
    obtain ⟨-, hs2, hs3, hs4, hs5⟩ := callback_static s f SWITCH_ABC_TYPE_READ_REPLACE
    simp only [feed_trace, List.mem_cons] at hr
    rcases hr with hr | hr
    · rw [hr]; exact ⟨h1, h2, h3⟩
    · have hcongr := counts_as_voiced_congr _ s hs2 hs3
      have := ih (wait_for_silence_callback s f SWITCH_ABC_TYPE_READ_REPLACE).wfs h2
        (by rw [h3, hs5]) (by rw [hcongr, hs4]; omega) r hr
      rw [hs5] at this
      exact this

/-- C5: for every configuration and every sequence of frames fed to a freshly
started detector in which at most listen_hits frames count as Voiced, after
every feed no completion event with silence_detected true has been fired, the
silence_detected flag is false and silence_hits equals the configured
silence_hits. -/
theorem C5_hysteresis_requires_priming (session : Option switch_core_session_t)
    (silence_threshold silence_hits listen_hits timeout_ms : Nat)
    (s : wait_for_silence_t) (fs : List switch_frame_t)
    (hstart : wait_for_silence_start session silence_threshold silence_hits listen_hits
      timeout_ms = some s)
    (hcount : fs.countP (counts_as_voiced s) ≤ listen_hits) :
    ∀ r ∈ feed_trace s fs,
      r.event ≠ some true ∧ r.wfs.silence_detected = false ∧
      r.wfs.silence_hits = silence_hits := by
  obtain ⟨h1, h2, h3, h4, -, -, h7, -, -⟩ := start_some _ _ _ _ _ _ hstart
  have := feed_trace_unprimed fs s h7 (by rw [h2, h3]) (by rw [h1, h4]; omega)
  rw [h2] at this
  exact this

/-- C5 (witness): two Voiced frames among Silence frames and an empty frame,
with listen_hits 2. -/
theorem C5_hysteresis_requires_priming_witness :
    (wait_for_silence_start (some session8k) 256 3 2 60000 = some started_state ∧
      [quiet_frame, voice_frame, quiet_frame, empty_frame, voice_frame, quiet_frame,
        quiet_frame, quiet_frame, quiet_frame].countP (counts_as_voiced started_state) ≤ 2) ∧
    (∀ r ∈ feed_trace started_state
        [quiet_frame, voice_frame, quiet_frame, empty_frame, voice_frame, quiet_frame,
          quiet_frame, quiet_frame, quiet_frame],
      r.event ≠ some true ∧ r.wfs.silence_detected = false ∧ r.wfs.silence_hits = 3) :=
  ⟨by decide, C5_hysteresis_requires_priming (some session8k) 256 3 2 60000 started_state
    [quiet_frame, voice_frame, quiet_frame, empty_frame, voice_frame, quiet_frame,
      quiet_frame, quiet_frame, quiet_frame] (by decide) (by decide)⟩


/-- One call of the callback keeps the countdown between 1 and its initial
value while the detector is pending, and between 0 and its initial value
afterwards; silence is detected only by the step from 1 to 0. -/
theorem callback_countdown (s : wait_for_silence_t) (f : switch_frame_t)
    (hS : 1 ≤ s.org_silence_hits) (hle : s.silence_hits ≤ s.org_silence_hits)
    (hpend : s.complete = false → 1 ≤ s.silence_hits ∧ s.silence_detected = false) :
    ((wait_for_silence_callback s f SWITCH_ABC_TYPE_READ_REPLACE).wfs.silence_hits ≤
      s.org_silence_hits) ∧
    ((wait_for_silence_callback s f SWITCH_ABC_TYPE_READ_REPLACE).wfs.complete = false →
      1 ≤ (wait_for_silence_callback s f SWITCH_ABC_TYPE_READ_REPLACE).wfs.silence_hits ∧
      (wait_for_silence_callback s f
        SWITCH_ABC_TYPE_READ_REPLACE).wfs.silence_detected = false) ∧
    ((wait_for_silence_callback s f SWITCH_ABC_TYPE_READ_REPLACE).event = some true →
      (wait_for_silence_callback s f SWITCH_ABC_TYPE_READ_REPLACE).wfs.silence_hits = 0 ∧
      s.silence_hits = 1) := by
  rcases callback_cases s f with ⟨h, -⟩ | ⟨h, -⟩ | ⟨hc, hf, h, -⟩ | ⟨hc, hf, h, -⟩
  · rw [h]; exact ⟨hle, hpend, by simp⟩
  · rw [h]; exact ⟨hle, hpend, by simp⟩
  · rw [h]
    obtain ⟨-, hsd⟩ := hpend hc
    exact ⟨hle, by simp, by simp [hsd]⟩
  · rw [h]
    obtain ⟨h1, hsd⟩ := hpend hc
    cases frame_class s f with
    | VOICED =>
      rw [hysteresis_voiced]
      exact ⟨by simp, fun _ => ⟨by simpa using hS, by simpa using hsd⟩, by simp⟩
    | BADFRAME =>
      rw [hysteresis_badframe]
      exact ⟨by simp, fun _ => ⟨by simpa using hS, by simpa using hsd⟩, by simp⟩
    | SILENCE =>
      by_cases hp : (callback_decrement s).listen_hits < (callback_decrement s).listening
      · by_cases hone : s.silence_hits = 1
        · rw [hysteresis_silence_detect _ hp (by simpa using hone)]
          exact ⟨by simp, by simp, fun _ => ⟨rfl, hone⟩⟩
        · rw [hysteresis_silence_count _ hp (by simpa using hone)]
          have hdec : uint32_dec s.silence_hits = s.silence_hits - 1 := by
            unfold uint32_dec; rw [if_neg (by omega)]
          refine ⟨?_, fun _ => ⟨?_, ?_⟩, by simp⟩
          · show uint32_dec (callback_decrement s).silence_hits ≤ s.org_silence_hits
            rw [callback_decrement_silence_hits, hdec]; omega
          · show 1 ≤ uint32_dec (callback_decrement s).silence_hits
            rw [callback_decrement_silence_hits, hdec]; omega
          · simpa using hsd
      · rw [hysteresis_silence_unprimed _ (by omega)]
        exact ⟨by simp, fun _ => ⟨by simpa using hS, by simpa using hsd⟩, by simp⟩

/-- The countdown bounds hold after any sequence of frames. -/
theorem feed_all_countdown (fs : List switch_frame_t) :
    ∀ s : wait_for_silence_t, 1 ≤ s.org_silence_hits →
      s.silence_hits ≤ s.org_silence_hits →
      (s.complete = false → 1 ≤ s.silence_hits ∧ s.silence_detected = false) →
      (feed_all s fs).org_silence_hits = s.org_silence_hits ∧
      (feed_all s fs).silence_hits ≤ s.org_silence_hits ∧
      ((feed_all s fs).complete = false →
        1 ≤ (feed_all s fs).silence_hits ∧ (feed_all s fs).silence_detected = false) := by
  induction fs with
  | nil => intro s _ hle hpend; exact ⟨rfl, hle, hpend⟩
  | cons f fs ih =>
    intro s hS hle hpend
    obtain ⟨h1, h2, -⟩ := callback_countdown s f hS hle hpend
    obtain ⟨-, -, -, -, hs5⟩ := callback_static s f SWITCH_ABC_TYPE_READ_REPLACE
    have := ih (wait_for_silence_callback s f SWITCH_ABC_TYPE_READ_REPLACE).wfs
      (by rw [hs5]; exact hS) (by rw [hs5]; exact h1) h2
    rw [hs5] at this
    exact this

/-- C10 (as stated, refuted): started with silence_hits 0 and listen_hits 0,
after one Voiced and one Silence frame silence_hits is 4294967295, outside
the range from 0 to the configured silence_hits. -/
theorem C10_zero_silence_hits_wraps :
    wait_for_silence_start (some session8k) 256 0 0 0 = some zero_hits_state ∧
    zero_hits_state.org_silence_hits = 0 ∧
    (feed_all zero_hits_state [voice_frame, quiet_frame]).silence_hits = 4294967295 ∧
    ¬ ((feed_all zero_hits_state [voice_frame, quiet_frame]).silence_hits ≤
      zero_hits_state.org_silence_hits) := by
  decide

/-- C10 (amended): for every configuration with silence_hits >= 1 and every
sequence of frames fed to a freshly started detector, silence_hits stays at
most the configured silence_hits after every feed, and a feed that fires the
completion event with silence_detected true has brought silence_hits from 1
to 0. -/
theorem C10_countdown_range (session : Option switch_core_session_t)
    (silence_threshold silence_hits listen_hits timeout_ms : Nat)
    (s : wait_for_silence_t) (fs : List switch_frame_t) (frame : switch_frame_t)
    (hstart : wait_for_silence_start session silence_threshold silence_hits listen_hits
      timeout_ms = some s)
    (hS : 1 ≤ silence_hits) :
    (feed_all s fs).silence_hits ≤ silence_hits ∧
    (wait_for_silence_callback (feed_all s fs) frame
      SWITCH_ABC_TYPE_READ_REPLACE).wfs.silence_hits ≤ silence_hits ∧
    ((wait_for_silence_callback (feed_all s fs) frame
        SWITCH_ABC_TYPE_READ_REPLACE).event = some true →
      (feed_all s fs).silence_hits = 1 ∧
      (wait_for_silence_callback (feed_all s fs) frame
        SWITCH_ABC_TYPE_READ_REPLACE).wfs.silence_hits = 0) := by
  obtain ⟨-, h2, h3, -, -, -, h7, -, -⟩ := start_some _ _ _ _ _ _ hstart
  obtain ⟨ha, hb, hc⟩ := feed_all_countdown fs s (by rw [h2]; exact hS)
    (by rw [h2, h3]) (fun _ => ⟨by rw [h3]; exact hS, h7⟩)
  obtain ⟨hd, -, he⟩ := callback_countdown (feed_all s fs) frame
    (by rw [ha, h2]; exact hS) (by rw [ha]; exact hb) hc
  rw [ha] at hd
  rw [h2] at hb hd
  exact ⟨hb, hd, fun h => ⟨(he h).2, (he h).1⟩⟩

/-- C10 (witness): silence_hits 3, listen_hits 2; the sixth frame detects
silence. -/
theorem C10_countdown_range_witness :
    (wait_for_silence_start (some session8k) 256 3 2 60000 = some started_state ∧
      (wait_for_silence_callback
        (feed_all started_state
          [voice_frame, voice_frame, voice_frame, quiet_frame, quiet_frame])
        quiet_frame SWITCH_ABC_TYPE_READ_REPLACE).event = some true) ∧
    ((feed_all started_state
        [voice_frame, voice_frame, voice_frame, quiet_frame, quiet_frame]).silence_hits ≤ 3 ∧
    (wait_for_silence_callback
      (feed_all started_state
        [voice_frame, voice_frame, voice_frame, quiet_frame, quiet_frame])
      quiet_frame SWITCH_ABC_TYPE_READ_REPLACE).wfs.silence_hits ≤ 3 ∧
    ((wait_for_silence_callback
        (feed_all started_state
          [voice_frame, voice_frame, voice_frame, quiet_frame, quiet_frame])
        quiet_frame SWITCH_ABC_TYPE_READ_REPLACE).event = some true →
      (feed_all started_state
        [voice_frame, voice_frame, voice_frame, quiet_frame, quiet_frame]).silence_hits = 1 ∧
      (wait_for_silence_callback
        (feed_all started_state
          [voice_frame, voice_frame, voice_frame, quiet_frame, quiet_frame])
        quiet_frame SWITCH_ABC_TYPE_READ_REPLACE).wfs.silence_hits = 0)) :=
  ⟨by decide, C10_countdown_range (some session8k) 256 3 2 60000 started_state
    [voice_frame, voice_frame, voice_frame, quiet_frame, quiet_frame] quiet_frame
    (by decide) (by decide)⟩


/-- The two ways the hysteresis step can end on a pending detector: it goes on,
or it detects silence by taking the countdown from 1 to 0. -/
theorem hysteresis_outcome (s : wait_for_silence_t)
    (c : wait_for_silence_frame_classifier)
    (hc : s.complete = false) (hsd : s.silence_detected = false) :
    ((callback_hysteresis s c).ret = true ∧
      (callback_hysteresis s c).event = none ∧
      (callback_hysteresis s c).wfs.complete = false ∧
      (callback_hysteresis s c).wfs.silence_detected = false) ∨
    ((callback_hysteresis s c).ret = false ∧
      (callback_hysteresis s c).event = some true ∧
      (callback_hysteresis s c).wfs.complete = true ∧
      (callback_hysteresis s c).wfs.silence_detected = true ∧
      (callback_hysteresis s c).wfs.channel.wait_for_silence_timeout = some false ∧
      (callback_hysteresis s c).wfs.silence_hits = 0 ∧
      c = SILENCE ∧ s.listen_hits < s.listening ∧ s.silence_hits = 1) := by
  cases c with
  | VOICED => left; rw [hysteresis_voiced]; exact ⟨rfl, rfl, hc, hsd⟩
  | BADFRAME => left; rw [hysteresis_badframe]; exact ⟨rfl, rfl, hc, hsd⟩
  | SILENCE =>
    by_cases hp : s.listen_hits < s.listening
    · by_cases hone : s.silence_hits = 1
      · right
        rw [hysteresis_silence_detect s hp hone]
        exact ⟨rfl, rfl, rfl, rfl, rfl, rfl, rfl, hp, hone⟩
      · left; rw [hysteresis_silence_count s hp hone]; exact ⟨rfl, rfl, hc, hsd⟩
    · left
      rw [hysteresis_silence_unprimed s (by omega)]
      exact ⟨rfl, rfl, hc, hsd⟩

/-- A pending detector has not detected silence: this holds at start and is
kept by every call. -/
theorem callback_pending (s : wait_for_silence_t) (f : switch_frame_t)
    (h : s.complete = false → s.silence_detected = false) :
    (wait_for_silence_callback s f SWITCH_ABC_TYPE_READ_REPLACE).wfs.complete = false →
    (wait_for_silence_callback s f SWITCH_ABC_TYPE_READ_REPLACE).wfs.silence_detected =
      false := by
  rcases callback_cases s f with ⟨hr, -⟩ | ⟨hr, -⟩ | ⟨hc, -, hr, -⟩ | ⟨hc, -, hr, -⟩
  · rw [hr]; exact h
  · rw [hr]; exact h
  · rw [hr]; intro hx; cases hx
  · rw [hr]
    rcases hysteresis_outcome (callback_decrement s) (frame_class s f)
      (by simpa using hc) (by simpa using h hc) with ho | ho
    · intro _; exact ho.2.2.2
    · intro hx; rw [ho.2.2.1] at hx; cases hx

theorem feed_all_pending (fs : List switch_frame_t) :
    ∀ s : wait_for_silence_t, (s.complete = false → s.silence_detected = false) →
      (feed_all s fs).complete = false → (feed_all s fs).silence_detected = false := by
  induction fs with
  | nil => intro s h; exact h
  | cons f fs ih => intro s h; exact ih _ (callback_pending s f h)

/-- No completion event has been fired while the detector is still pending. -/
theorem feed_trace_events_pending (fs : List switch_frame_t) :
    ∀ s : wait_for_silence_t, (feed_all s fs).complete = false →
      (feed_trace s fs).countP (fun r => r.event.isSome) = 0 := by
  induction fs with
  | nil => intro s _; rfl
  | cons f fs ih =>
    intro s h
    simp only [feed_all] at h
    simp only [feed_trace, List.countP_cons]
    rw [ih _ h]
    cases hev : (wait_for_silence_callback s f SWITCH_ABC_TYPE_READ_REPLACE).event with
    | none => rfl
    | some b =>
      have hc := callback_event_complete s f b hev
      rw [feed_all_complete _ fs hc, hc] at h
      cases h

/-- A call that completes a pending detector that has not detected silence. -/
theorem callback_completes (s : wait_for_silence_t) (f : switch_frame_t)
    (hc : s.complete = false) (hsd : s.silence_detected = false)
    (hpost : (wait_for_silence_callback s f SWITCH_ABC_TYPE_READ_REPLACE).wfs.complete =
      true) :
    (wait_for_silence_callback s f SWITCH_ABC_TYPE_READ_REPLACE).ret = false ∧
    (wait_for_silence_callback s f SWITCH_ABC_TYPE_READ_REPLACE).event =
      some (wait_for_silence_callback s f
        SWITCH_ABC_TYPE_READ_REPLACE).wfs.silence_detected ∧
    (wait_for_silence_callback s f
        SWITCH_ABC_TYPE_READ_REPLACE).wfs.channel.wait_for_silence_timeout =
      some (!(wait_for_silence_callback s f
        SWITCH_ABC_TYPE_READ_REPLACE).wfs.silence_detected) ∧
    ((wait_for_silence_callback s f SWITCH_ABC_TYPE_READ_REPLACE).wfs.silence_detected =
        true ↔
      s.silence_hits = 1 ∧
      (wait_for_silence_callback s f SWITCH_ABC_TYPE_READ_REPLACE).wfs.silence_hits = 0) ∧
    ((wait_for_silence_callback s f SWITCH_ABC_TYPE_READ_REPLACE).wfs.silence_detected =
        false ↔
      s.sample_count ≠ 0 ∧
      (wait_for_silence_callback s f SWITCH_ABC_TYPE_READ_REPLACE).wfs.sample_count ≤ 0) := by
  rcases callback_cases s f with ⟨hr, -⟩ | ⟨hr, -⟩ | ⟨-, -, hr, hb⟩ | ⟨-, -, hr, hdec⟩
  · rw [hr, hc] at hpost; cases hpost
  · rw [hr, hc] at hpost; cases hpost
  · -- timeout
    rw [hr]
    refine ⟨rfl, rfl, ?_, ?_, ?_⟩
    · simp [hsd]
    · simp only [hsd]
      constructor
      · intro hx; cases hx
      · rintro ⟨h1, h0⟩; rw [h1] at h0; cases h0
    · simp only [hsd, true_iff]
      exact hb
  · -- hysteresis
    rw [hr] at hpost ⊢
    rcases hysteresis_outcome (callback_decrement s) (frame_class s f)
      (by simpa using hc) (by simpa using hsd) with ho | ho
    · rw [ho.2.2.1] at hpost; cases hpost
    · obtain ⟨h1, h2, -, h4, h5, h6, -, -, h9⟩ := ho
      rw [callback_decrement_silence_hits] at h9
      refine ⟨h1, by rw [h2, h4], by rw [h5, h4]; rfl, ?_, ?_⟩
      · rw [h4, h6]; simp [h9]
      · rw [h4, (hysteresis_static _ _).1]
        simp only [Bool.true_eq_false, false_iff, not_and, not_le]
        intro h0
        rcases hdec with hd | hd
        · exact absurd hd h0
        · simp only [callback_decrement, if_pos h0]
          exact hd


/-- C11: when a feed completes a started detector, the callback returns
SWITCH_FALSE and fires the completion event, whose silence_detected value is
the detector's flag; wait_for_silence_timeout is set to the negation of that
flag; the flag is true exactly when this feed took silence_hits from 1 to 0,
and false exactly when this feed brought a non-zero sample_count to <= 0; and
the feeds up to and including this one fired exactly one completion event. -/
theorem C11_one_outcome_latched (session : Option switch_core_session_t)
    (silence_threshold silence_hits listen_hits timeout_ms : Nat)
    (s : wait_for_silence_t) (fs : List switch_frame_t) (frame : switch_frame_t)
    (hstart : wait_for_silence_start session silence_threshold silence_hits listen_hits
      timeout_ms = some s)
    (hpre : (feed_all s fs).complete = false)
    (hpost : (wait_for_silence_callback (feed_all s fs) frame
      SWITCH_ABC_TYPE_READ_REPLACE).wfs.complete = true) :
    (wait_for_silence_callback (feed_all s fs) frame
      SWITCH_ABC_TYPE_READ_REPLACE).ret = false ∧
    (wait_for_silence_callback (feed_all s fs) frame
      SWITCH_ABC_TYPE_READ_REPLACE).event =
      some (wait_for_silence_callback (feed_all s fs) frame
        SWITCH_ABC_TYPE_READ_REPLACE).wfs.silence_detected ∧
    (wait_for_silence_callback (feed_all s fs) frame
        SWITCH_ABC_TYPE_READ_REPLACE).wfs.channel.wait_for_silence_timeout =
      some (!(wait_for_silence_callback (feed_all s fs) frame
        SWITCH_ABC_TYPE_READ_REPLACE).wfs.silence_detected) ∧
    ((wait_for_silence_callback (feed_all s fs) frame
        SWITCH_ABC_TYPE_READ_REPLACE).wfs.silence_detected = true ↔
      (feed_all s fs).silence_hits = 1 ∧
      (wait_for_silence_callback (feed_all s fs) frame
        SWITCH_ABC_TYPE_READ_REPLACE).wfs.silence_hits = 0) ∧
    ((wait_for_silence_callback (feed_all s fs) frame
        SWITCH_ABC_TYPE_READ_REPLACE).wfs.silence_detected = false ↔
      (feed_all s fs).sample_count ≠ 0 ∧
      (wait_for_silence_callback (feed_all s fs) frame
        SWITCH_ABC_TYPE_READ_REPLACE).wfs.sample_count ≤ 0) ∧
    (feed_trace s (fs ++ [frame])).countP (fun r => r.event.isSome) = 1 := by
  obtain ⟨-, -, -, -, -, -, h7, -, -⟩ := start_some _ _ _ _ _ _ hstart
  have hsd := feed_all_pending fs s (fun _ => h7) hpre
  obtain ⟨h1, h2, h3, h4, h5⟩ := callback_completes (feed_all s fs) frame hpre hsd hpost
  refine ⟨h1, h2, h3, h4, h5, ?_⟩
  rw [feed_trace_append, List.countP_append, feed_trace_events_pending fs s hpre]
  simp only [feed_trace, List.countP_cons, List.countP_nil, h2]
  rfl

/-- C11 (witness): listen_hits 2, silence_hits 3; the sixth frame completes by
detecting silence. -/
theorem C11_one_outcome_latched_witness :
    (wait_for_silence_start (some session8k) 256 3 2 60000 = some started_state ∧
      (feed_all started_state
        [voice_frame, voice_frame, voice_frame, quiet_frame, quiet_frame]).complete = false ∧
      (wait_for_silence_callback
        (feed_all started_state
          [voice_frame, voice_frame, voice_frame, quiet_frame, quiet_frame])
        quiet_frame SWITCH_ABC_TYPE_READ_REPLACE).wfs.complete = true) ∧
    (wait_for_silence_callback
      (feed_all started_state
        [voice_frame, voice_frame, voice_frame, quiet_frame, quiet_frame])
      quiet_frame SWITCH_ABC_TYPE_READ_REPLACE).event = some true ∧
    (wait_for_silence_callback
      (feed_all started_state
        [voice_frame, voice_frame, voice_frame, quiet_frame, quiet_frame])
      quiet_frame
      SWITCH_ABC_TYPE_READ_REPLACE).wfs.channel.wait_for_silence_timeout = some false ∧
    (feed_trace started_state
      ([voice_frame, voice_frame, voice_frame, quiet_frame, quiet_frame] ++
        [quiet_frame])).countP (fun r => r.event.isSome) = 1 := by
  have h := C11_one_outcome_latched (some session8k) 256 3 2 60000 started_state
    [voice_frame, voice_frame, voice_frame, quiet_frame, quiet_frame] quiet_frame
    (by decide) (by decide) (by decide)
  have hsd : (wait_for_silence_callback
      (feed_all started_state
        [voice_frame, voice_frame, voice_frame, quiet_frame, quiet_frame])
      quiet_frame SWITCH_ABC_TYPE_READ_REPLACE).wfs.silence_detected = true := by decide
  refine ⟨by decide, ?_, ?_, h.2.2.2.2.2⟩
  · rw [h.2.1, hsd]
  · rw [h.2.2.1, hsd]; rfl

/-- C18: on a pending detector whose budget is not exhausted by the frame, a
non-empty frame classified BADFRAME returns SWITCH_TRUE without a completion
event, sets silence_hits to the configured silence_hits, leaves listening
unchanged and does not complete, whatever listening is relative to
listen_hits. -/
theorem C18_badframe_resets_countdown (s : wait_for_silence_t)
    (frame : switch_frame_t)
    (hc : s.complete = false) (hframe : frame.samples ≠ 0)
    (hbad : frame_class s frame = BADFRAME)
    (hb : budget_lasts s.sample_count s.samples_per_packet 1 = true) :
    (wait_for_silence_callback s frame SWITCH_ABC_TYPE_READ_REPLACE).ret = true ∧
    (wait_for_silence_callback s frame SWITCH_ABC_TYPE_READ_REPLACE).event = none ∧
    (wait_for_silence_callback s frame SWITCH_ABC_TYPE_READ_REPLACE).wfs.silence_hits =
      s.org_silence_hits ∧
    (wait_for_silence_callback s frame SWITCH_ABC_TYPE_READ_REPLACE).wfs.listening =
      s.listening ∧
    (wait_for_silence_callback s frame SWITCH_ABC_TYPE_READ_REPLACE).wfs.complete = false ∧
    (wait_for_silence_callback s frame SWITCH_ABC_TYPE_READ_REPLACE).wfs.silence_detected =
      s.silence_detected := by
  obtain ⟨hb1, -⟩ := budget_lasts_succ _ _ 0 hb
  rw [callback_badframe s frame hc hframe hbad hb1]
  exact ⟨rfl, rfl, rfl, rfl, hc, rfl⟩

/-- C18 (witness): silence_threshold 6000, a frame with score 5000, on a primed
detector with one silence hit remaining. -/
theorem C18_badframe_resets_countdown_witness :
    (high_threshold_state.complete = false ∧ loud_frame.samples ≠ 0 ∧
      frame_class high_threshold_state loud_frame = BADFRAME ∧
      high_threshold_state.listen_hits < high_threshold_state.listening ∧
      high_threshold_state.silence_hits = 1 ∧
      budget_lasts high_threshold_state.sample_count
        high_threshold_state.samples_per_packet 1 = true) ∧
    ((wait_for_silence_callback high_threshold_state loud_frame
      SWITCH_ABC_TYPE_READ_REPLACE).ret = true ∧
    (wait_for_silence_callback high_threshold_state loud_frame
      SWITCH_ABC_TYPE_READ_REPLACE).event = none ∧
    (wait_for_silence_callback high_threshold_state loud_frame
      SWITCH_ABC_TYPE_READ_REPLACE).wfs.silence_hits =
      high_threshold_state.org_silence_hits ∧
    (wait_for_silence_callback high_threshold_state loud_frame
      SWITCH_ABC_TYPE_READ_REPLACE).wfs.listening = high_threshold_state.listening ∧
    (wait_for_silence_callback high_threshold_state loud_frame
      SWITCH_ABC_TYPE_READ_REPLACE).wfs.complete = false ∧
    (wait_for_silence_callback high_threshold_state loud_frame
      SWITCH_ABC_TYPE_READ_REPLACE).wfs.silence_detected =
      high_threshold_state.silence_detected) :=
  ⟨by decide, C18_badframe_resets_countdown high_threshold_state loud_frame (by decide)
    (by decide) (by decide) (by decide)⟩


/-- The budget and packet size that a successful `wait_for_silence_start`
computes from the read codec implementation. -/
theorem start_budget (session : Option switch_core_session_t)
    (silence_threshold silence_hits listen_hits timeout_ms : Nat)
    (s : wait_for_silence_t)
    (h : wait_for_silence_start session silence_threshold silence_hits listen_hits
      timeout_ms = some s) :
    s.sample_count =
      to_int32 (((s.read_impl.actual_samples_per_second / 1000) * timeout_ms
        % 4294967296 : Nat) : Int) ∧
    s.samples_per_packet = to_int32 (s.read_impl.samples_per_packet : Int) := by
  unfold wait_for_silence_start at h
  cases session with
  | none => simp at h
  | some session =>
    cases hr : session.read_impl with
    | none => simp [hr] at h
    | some read_impl =>
      simp only [hr] at h
      split_ifs at h
      injection h with h
      subst h
      exact ⟨rfl, rfl⟩

/-- Feeding frames never changes the configuration fields. -/
theorem feed_all_static (fs : List switch_frame_t) :
    ∀ s : wait_for_silence_t,
      (feed_all s fs).samples_per_packet = s.samples_per_packet ∧
      (feed_all s fs).read_impl = s.read_impl ∧
      (feed_all s fs).silence_threshold = s.silence_threshold ∧
      (feed_all s fs).listen_hits = s.listen_hits ∧
      (feed_all s fs).org_silence_hits = s.org_silence_hits := by
  induction fs with
  | nil => intro s; exact ⟨rfl, rfl, rfl, rfl, rfl⟩
  | cons f fs ih =>
    intro s
    obtain ⟨a1, a2, a3, a4, a5⟩ := callback_static s f SWITCH_ABC_TYPE_READ_REPLACE
    obtain ⟨b1, b2, b3, b4, b5⟩ :=
      ih (wait_for_silence_callback s f SWITCH_ABC_TYPE_READ_REPLACE).wfs
    simp only [feed_all]
    exact ⟨b1.trans a1, b2.trans a2, b3.trans a3, b4.trans a4, b5.trans a5⟩

theorem frame_class_congr (s1 s2 : wait_for_silence_t) (f : switch_frame_t)
    (h1 : s1.read_impl = s2.read_impl)
    (h2 : s1.silence_threshold = s2.silence_threshold) :
    frame_class s1 f = frame_class s2 f := by
  simp only [frame_class, h1, h2]

theorem feed_all_snoc (s : wait_for_silence_t) (fs : List switch_frame_t)
    (f : switch_frame_t) :
    feed_all s (fs ++ [f]) =
      (wait_for_silence_callback (feed_all s fs) f SWITCH_ABC_TYPE_READ_REPLACE).wfs := by
  rw [feed_all_append]; rfl

/-- While the detector is pending, the distance of the countdown from its
initial value counts a run of Silence frames at the end of the frames fed so
far; the run began on a primed detector; and `listening` is at most the number
of Voiced frames before the run. -/
theorem feed_all_silence_run (s : wait_for_silence_t) (hS : 1 ≤ s.org_silence_hits)
    (hl0 : s.listening = 0) (hsh0 : s.silence_hits = s.org_silence_hits)
    (hsd0 : s.silence_detected = false) (pre : List switch_frame_t) :
    (∀ g ∈ pre, g.samples ≠ 0) → (feed_all s pre).complete = false →
    1 ≤ (feed_all s pre).silence_hits ∧
    (feed_all s pre).silence_hits ≤ s.org_silence_hits ∧
    s.org_silence_hits - (feed_all s pre).silence_hits ≤ pre.length ∧
    (∀ g ∈ pre.drop (pre.length - (s.org_silence_hits - (feed_all s pre).silence_hits)),
      frame_class s g = SILENCE) ∧
    ((feed_all s pre).silence_hits < s.org_silence_hits →
      s.listen_hits < (feed_all s pre).listening) ∧
    (feed_all s pre).listening ≤
      (pre.take (pre.length -
        (s.org_silence_hits - (feed_all s pre).silence_hits))).countP
        (counts_as_voiced s) := by
  induction pre using List.reverseRecOn with
  | nil =>
    intro _ _
    simp only [feed_all, hsh0, hl0]
    refine ⟨hS, le_refl _, by simp, by simp, fun h => absurd h (lt_irrefl _), by simp⟩
  | append_singleton pre g ih =>
    intro hne hpend
    have hg : g.samples ≠ 0 := hne g (by simp)
    have hne' : ∀ x ∈ pre, x.samples ≠ 0 := fun x hx => hne x (by simp [hx])
    rw [feed_all_snoc] at hpend ⊢
    obtain ⟨-, st2, st3, st4, st5⟩ := feed_all_static pre s
    have hclass : frame_class (feed_all s pre) g = frame_class s g :=
      frame_class_congr _ _ g st2 st3
    -- the detector was pending before this frame
    have hprev : (feed_all s pre).complete = false := by
      by_contra hc
      have hc' : (feed_all s pre).complete = true := by simpa using hc
      rw [callback_complete _ g hc', hc'] at hpend
      cases hpend
    obtain ⟨i1, i2, i3, i4, i5, i6⟩ := ih hne' hprev
    have hsd : (feed_all s pre).silence_detected = false :=
      feed_all_pending pre s (fun _ => hsd0) hprev
    have hfull : (pre ++ [g]).take (pre ++ [g]).length = pre ++ [g] := List.take_length _
    have hcount_le : (pre.take (pre.length -
        (s.org_silence_hits - (feed_all s pre).silence_hits))).countP
        (counts_as_voiced s) ≤ pre.countP (counts_as_voiced s) :=
      List.Sublist.countP_le _ (List.take_sublist _ _)
    rcases callback_cases (feed_all s pre) g with
      ⟨-, hx⟩ | ⟨-, -, hx⟩ | ⟨-, -, hr, -⟩ | ⟨-, -, hr, -⟩
    · rw [hprev] at hx; cases hx
    · exact absurd hx hg
    · rw [hr] at hpend; cases hpend
    · rw [hr, hclass] at hpend ⊢
      have hlen : (pre ++ [g]).length = pre.length + 1 := by simp
      cases hcl : frame_class s g with
      | VOICED =>
        rw [hysteresis_voiced]
        have hcv : counts_as_voiced s g = true := by simp [counts_as_voiced, hg, hcl]
        simp only [callback_decrement_org_silence_hits, callback_decrement_listening, st5,
          Nat.sub_self, Nat.sub_zero, hfull, List.drop_length, List.countP_append,
          List.countP_cons, List.countP_nil, hcv]
        refine ⟨hS, le_refl _, Nat.zero_le _, by simp, fun h => absurd h (lt_irrefl _), ?_⟩
        have : uint32_inc (feed_all s pre).listening ≤ (feed_all s pre).listening + 1 := by
          unfold uint32_inc; exact Nat.mod_le _ _
        simp only [if_true]
        omega
      | BADFRAME =>
        rw [hysteresis_badframe]
        simp only [callback_decrement_org_silence_hits, callback_decrement_listening, st5,
          Nat.sub_self, Nat.sub_zero, hfull, List.drop_length, List.countP_append]
        refine ⟨hS, le_refl _, Nat.zero_le _, by simp, fun h => absurd h (lt_irrefl _), ?_⟩
        omega
      | SILENCE =>
        rw [hcl] at hpend
        by_cases hp : (callback_decrement (feed_all s pre)).listen_hits <
            (callback_decrement (feed_all s pre)).listening
        · by_cases hone : (callback_decrement (feed_all s pre)).silence_hits = 1
          · rw [hysteresis_silence_detect _ hp hone] at hpend
            cases hpend
          · rw [hysteresis_silence_count _ hp hone]
            rw [callback_decrement_silence_hits] at hone
            rw [callback_decrement_listen_hits, callback_decrement_listening, st4] at hp
            have hdec : uint32_dec (feed_all s pre).silence_hits =
                (feed_all s pre).silence_hits - 1 := by
              unfold uint32_dec; rw [if_neg (by omega)]
            simp only [callback_decrement_silence_hits, callback_decrement_listening, hdec,
              hlen]
            have hidx : pre.length + 1 -
                (s.org_silence_hits - ((feed_all s pre).silence_hits - 1)) =
                pre.length - (s.org_silence_hits - (feed_all s pre).silence_hits) := by
              omega
            rw [hidx, List.drop_append_of_le_length (Nat.sub_le _ _),
              List.take_append_of_le_length (Nat.sub_le _ _)]
            refine ⟨by omega, by omega, by omega, ?_, fun _ => hp, i6⟩
            intro x hx
            rcases List.mem_append.mp hx with hx | hx
            · exact i4 x hx
            · rw [List.mem_singleton.mp hx]; exact hcl
        · rw [hysteresis_silence_unprimed _ (by omega)]
          simp only [callback_decrement_org_silence_hits, callback_decrement_listening, st5,
            Nat.sub_self, Nat.sub_zero, hfull, List.drop_length, List.countP_append]
          refine ⟨hS, le_refl _, Nat.zero_le _, by simp, fun h => absurd h (lt_irrefl _), ?_⟩
          omega


/-- C13: for every configuration with silence_hits S >= 1 and every sequence of
non-empty frames fed to a freshly started detector, if the n-th frame
completes with SilenceDetected then n >= S, the last S frames were all
classified Silence, and more than listen_hits of the frames before them were
classified Voiced. -/
theorem C13_detection_soundness (session : Option switch_core_session_t)
    (silence_threshold silence_hits listen_hits timeout_ms : Nat)
    (s : wait_for_silence_t) (fs : List switch_frame_t) (frame : switch_frame_t)
    (hstart : wait_for_silence_start session silence_threshold silence_hits listen_hits
      timeout_ms = some s)
    (hS : 1 ≤ silence_hits)
    (hne : ∀ g ∈ fs ++ [frame], g.samples ≠ 0)
    (hdet : (wait_for_silence_callback (feed_all s fs) frame
      SWITCH_ABC_TYPE_READ_REPLACE).event = some true) :
    silence_hits ≤ fs.length + 1 ∧
    (∀ g ∈ (fs ++ [frame]).drop (fs.length + 1 - silence_hits),
      frame_class s g = SILENCE) ∧
    listen_hits <
      ((fs ++ [frame]).take (fs.length + 1 - silence_hits)).countP
        (counts_as_voiced s) := by
  obtain ⟨h1, h2, h3, h4, -, -, h7, -, -⟩ := start_some _ _ _ _ _ _ hstart
  obtain ⟨-, st2, st3, st4, -⟩ := feed_all_static fs s
  have hne' : ∀ g ∈ fs, g.samples ≠ 0 := fun g hg => hne g (by simp [hg])
  -- the detector was pending before the frame
  have hprev : (feed_all s fs).complete = false := by
    by_contra hc
    have hc' : (feed_all s fs).complete = true := by simpa using hc
    rw [callback_complete _ frame hc'] at hdet
    cases hdet
  have hsd : (feed_all s fs).silence_detected = false :=
    feed_all_pending fs s (fun _ => h7) hprev
  obtain ⟨i1, i2, i3, i4, -, i6⟩ := feed_all_silence_run s (by rw [h2]; exact hS) h1
    (by rw [h2, h3]) h7 fs hne' hprev
  rw [h2] at i2 i3 i4 i6
  rcases callback_cases (feed_all s fs) frame with
    ⟨hr, -⟩ | ⟨hr, -⟩ | ⟨-, -, hr, -⟩ | ⟨-, -, hr, -⟩
  · rw [hr] at hdet; cases hdet
  · rw [hr] at hdet; cases hdet
  · rw [hr, hsd] at hdet; cases hdet
  · rw [hr] at hdet
    rcases hysteresis_outcome (callback_decrement (feed_all s fs))
      (frame_class (feed_all s fs) frame) (by simpa using hprev) (by simpa using hsd)
      with ho | ho
    · rw [ho.2.1] at hdet; cases hdet
    · obtain ⟨-, -, -, -, -, -, o7, o8, o9⟩ := ho
      rw [frame_class_congr _ _ frame st2 st3] at o7
      rw [callback_decrement_listen_hits, callback_decrement_listening, st4, h4] at o8
      rw [callback_decrement_silence_hits] at o9
      rw [o9] at i3 i4 i6
      have hidx : fs.length + 1 - silence_hits = fs.length - (silence_hits - 1) := by
        omega
      rw [hidx, List.drop_append_of_le_length (Nat.sub_le _ _),
        List.take_append_of_le_length (Nat.sub_le _ _)]
      refine ⟨by omega, ?_, by omega⟩
      intro x hx
      rcases List.mem_append.mp hx with hx | hx
      · exact i4 x hx
      · rw [List.mem_singleton.mp hx]; exact o7

/-- C13 (witness): listen_hits 2, silence_hits 3; silence is detected on the
seventh frame of Voiced, Silence, Voiced, Voiced, Silence, Silence, Silence. -/
theorem C13_detection_soundness_witness :
    (wait_for_silence_start (some session8k) 256 3 2 60000 = some started_state ∧
      (∀ g ∈ [voice_frame, quiet_frame, voice_frame, voice_frame, quiet_frame,
          quiet_frame] ++ [quiet_frame], g.samples ≠ 0) ∧
      (wait_for_silence_callback
        (feed_all started_state
          [voice_frame, quiet_frame, voice_frame, voice_frame, quiet_frame, quiet_frame])
        quiet_frame SWITCH_ABC_TYPE_READ_REPLACE).event = some true) ∧
    (3 ≤ [voice_frame, quiet_frame, voice_frame, voice_frame, quiet_frame,
        quiet_frame].length + 1 ∧
    (∀ g ∈ ([voice_frame, quiet_frame, voice_frame, voice_frame, quiet_frame,
        quiet_frame] ++ [quiet_frame]).drop
        ([voice_frame, quiet_frame, voice_frame, voice_frame, quiet_frame,
          quiet_frame].length + 1 - 3),
      frame_class started_state g = SILENCE) ∧
    2 < (([voice_frame, quiet_frame, voice_frame, voice_frame, quiet_frame,
        quiet_frame] ++ [quiet_frame]).take
        ([voice_frame, quiet_frame, voice_frame, voice_frame, quiet_frame,
          quiet_frame].length + 1 - 3)).countP (counts_as_voiced started_state)) :=
  ⟨by decide, C13_detection_soundness (some session8k) 256 3 2 60000 started_state
    [voice_frame, quiet_frame, voice_frame, voice_frame, quiet_frame, quiet_frame]
    quiet_frame (by decide) (by decide) (by decide) (by decide)⟩


/-- One pass through the loop body moves the cursor by `2 + number_of_channels`
positions, modulo `2 ^ 32`. -/
theorem analyze_loop_body_j (data : Nat → Int) (c : Nat) (st : analyze_loop_t) :
    (analyze_loop_body data c st).j = (st.j + (2 + c)) % 4294967296 := by
  simp only [analyze_loop_body]
  omega

/-- The loop in closed form: the cursor, the sum of squares and the energy
after `n` iterations. -/
theorem analyze_loop_closed (data : Nat → Int) (c : Nat) (n : Nat) :
    ∀ st : analyze_loop_t, st.j < 4294967296 →
      (analyze_loop data c n st).j = (st.j + n * (2 + c)) % 4294967296 ∧
      (analyze_loop data c n st).sum_sq = st.sum_sq +
        Finset.sum (Finset.range n) (fun k =>
          (to_int16 (data ((st.j + k * (2 + c)) % 4294967296)) *
            to_int16 (data ((st.j + k * (2 + c)) % 4294967296))).natAbs) ∧
      (analyze_loop data c n st).energy = st.energy +
        Finset.sum (Finset.range n) (fun k =>
          (to_int16 (data ((st.j + k * (2 + c) + 1) % 4294967296))).natAbs) := by
  induction n with
  | zero =>
    intro st hj
    refine ⟨?_, ?_, ?_⟩ <;> simp [analyze_loop, Nat.mod_eq_of_lt hj]
  | succ n ih =>
    intro st hj
    have hbj := analyze_loop_body_j data c st
    obtain ⟨i1, i2, i3⟩ := ih (analyze_loop_body data c st)
      (by rw [hbj]; exact Nat.mod_lt _ (by decide))
    have hidx : ∀ k, ((analyze_loop_body data c st).j + k * (2 + c)) % 4294967296 =
        (st.j + (k + 1) * (2 + c)) % 4294967296 := by
      intro k
      rw [hbj, Nat.succ_mul]
      omega
    have hidx1 : ∀ k, ((analyze_loop_body data c st).j + k * (2 + c) + 1) % 4294967296 =
        (st.j + (k + 1) * (2 + c) + 1) % 4294967296 := by
      intro k
      rw [hbj, Nat.succ_mul]
      omega
    simp only [analyze_loop]
    refine ⟨?_, ?_, ?_⟩
    · rw [i1, hbj, Nat.succ_mul]; omega
    · rw [i2, Finset.sum_range_succ']
      simp only [hidx, Nat.zero_mul, Nat.add_zero, Nat.mod_eq_of_lt hj]
      simp only [analyze_loop_body]
      omega
    · rw [i3, Finset.sum_range_succ']
      simp only [hidx1, Nat.zero_mul, Nat.add_zero]
      simp only [analyze_loop_body]
      omega

/-- C16 (as stated, refuted): on a two-sample mono frame whose only non-zero
sample sits at position 3, the energy is 0, while the sum of the samples at
positions k * (1 + c) + 1, that is 1 and 3, is 100: the second energy sample is
read at position 4, not 3. -/
theorem C16_stride_is_not_one_plus_channels :
    stride_frame.samples = 2 ∧ pcmu8k.number_of_channels = 1 ∧
    (wait_for_silence_analyze_frame stride_frame pcmu8k 256).energy = 0 ∧
    Finset.sum (Finset.range 2) (fun k =>
      (to_int16 (stride_frame.data (k * (1 + 1) + 1))).natAbs) = 100 ∧
    (analyze_loop stride_frame.data 1 1 { j := 0, sum_sq := 0, energy := 0 }).j = 3 := by
  decide

/-- C16 (amended): for every frame with n samples and channel count c, the loop
advances its read cursor by exactly 2 + c positions per logical sample, modulo
2 ^ 32; the k-th RMS sample is the one at position k * (2 + c) and energy is
the sum over k in [0, n) of |audio[k * (2 + c) + 1]|, positions taken modulo
2 ^ 32 (and as they are when n * (2 + c) <= 2 ^ 32). -/
theorem C16_energy_stride (f : switch_frame_t)
    (codec : switch_codec_implementation_t) (silence_threshold : Nat) :
    (∀ st : analyze_loop_t,
      (analyze_loop_body f.data codec.number_of_channels st).j =
        (st.j + (2 + codec.number_of_channels)) % 4294967296) ∧
    (analyze_loop f.data codec.number_of_channels f.samples
        { j := 0, sum_sq := 0, energy := 0 }).j =
      (f.samples * (2 + codec.number_of_channels)) % 4294967296 ∧
    (wait_for_silence_analyze_frame f codec silence_threshold).sum_sq =
      Finset.sum (Finset.range f.samples) (fun k =>
        (to_int16 (f.data ((k * (2 + codec.number_of_channels)) % 4294967296)) *
          to_int16 (f.data ((k * (2 + codec.number_of_channels)) % 4294967296))).natAbs) ∧
    (wait_for_silence_analyze_frame f codec silence_threshold).energy =
      Finset.sum (Finset.range f.samples) (fun k =>
        (to_int16 (f.data
          ((k * (2 + codec.number_of_channels) + 1) % 4294967296))).natAbs) ∧
    (f.samples * (2 + codec.number_of_channels) ≤ 4294967296 →
      (wait_for_silence_analyze_frame f codec silence_threshold).energy =
        Finset.sum (Finset.range f.samples) (fun k =>
          (to_int16 (f.data (k * (2 + codec.number_of_channels) + 1))).natAbs)) := by
  obtain ⟨h1, h2, h3⟩ := analyze_loop_closed f.data codec.number_of_channels f.samples
    { j := 0, sum_sq := 0, energy := 0 } (by decide)
  simp only [Nat.zero_add] at h1 h2 h3
  refine ⟨analyze_loop_body_j f.data codec.number_of_channels, h1, ?_, ?_, ?_⟩
  · simp only [wait_for_silence_analyze_frame]; exact h2
  · simp only [wait_for_silence_analyze_frame]; exact h3
  · intro hle
    simp only [wait_for_silence_analyze_frame]
    rw [h3]
    apply Finset.sum_congr rfl
    intro k hk
    have hk' : k < f.samples := Finset.mem_range.mp hk
    have : k * (2 + codec.number_of_channels) + 1 < 4294967296 := by
      have : (k + 1) * (2 + codec.number_of_channels) ≤
          f.samples * (2 + codec.number_of_channels) :=
        Nat.mul_le_mul_right _ hk'
      rw [Nat.succ_mul] at this
      omega
    rw [Nat.mod_eq_of_lt this]


/-- The hysteresis step never reports a timeout. -/
theorem hysteresis_event (s : wait_for_silence_t)
    (c : wait_for_silence_frame_classifier) :
    (callback_hysteresis s c).event ≠ some false := by
  cases c with
  | VOICED => rw [hysteresis_voiced]; simp
  | BADFRAME => rw [hysteresis_badframe]; simp
  | SILENCE =>
    by_cases hp : s.listen_hits < s.listening
    · by_cases h1 : s.silence_hits = 1
      · rw [hysteresis_silence_detect s hp h1]; simp
      · rw [hysteresis_silence_count s hp h1]; simp
    · rw [hysteresis_silence_unprimed s (by omega)]; simp

/-- The decrement does nothing to a budget of 0. -/
theorem callback_decrement_zero (s : wait_for_silence_t) (h0 : s.sample_count = 0) :
    callback_decrement s = s := by
  simp [callback_decrement, h0]

/-- One call on a detector whose budget is 0, complete or not, frame empty or
not: the budget stays 0 and no timeout is reported. -/
theorem callback_zero_budget (s : wait_for_silence_t) (f : switch_frame_t)
    (h0 : s.sample_count = 0) :
    (wait_for_silence_callback s f SWITCH_ABC_TYPE_READ_REPLACE).wfs.sample_count = 0 ∧
    (wait_for_silence_callback s f SWITCH_ABC_TYPE_READ_REPLACE).event ≠ some false := by
  rcases callback_cases s f with ⟨h, -⟩ | ⟨h, -⟩ | ⟨-, -, -, hne, -⟩ | ⟨-, -, h, -⟩
  · rw [h]; exact ⟨h0, by simp⟩
  · rw [h]; exact ⟨h0, by simp⟩
  · exact absurd h0 hne
  · rw [h, callback_decrement_zero s h0]
    exact ⟨(hysteresis_static _ _).1.trans h0, hysteresis_event _ _⟩

/-- Any sequence of frames on a detector whose budget is 0: the budget is 0
after every call and no call reports a timeout. -/
theorem feed_zero_budget (fs : List switch_frame_t) :
    ∀ s : wait_for_silence_t, s.sample_count = 0 →
      (feed_all s fs).sample_count = 0 ∧
      ∀ r ∈ feed_trace s fs, r.wfs.sample_count = 0 ∧ r.event ≠ some false := by
  induction fs with
  | nil => intro s h0; exact ⟨h0, by simp [feed_trace]⟩
  | cons f fs ih =>
    intro s h0
    obtain ⟨h1, h2⟩ := callback_zero_budget s f h0
    obtain ⟨h3, h4⟩ := ih _ h1
    refine ⟨h3, ?_⟩
    intro r hr
    simp only [feed_trace, List.mem_cons] at hr
    rcases hr with hr | hr
    · rw [hr]; exact ⟨h1, h2⟩
    · exact h4 r hr

/-- A detector started with timeout_ms 0, or on a codec below 1000 Hz, has a
budget of 0. -/
theorem start_zero_budget (session : Option switch_core_session_t)
    (silence_threshold silence_hits listen_hits timeout_ms : Nat)
    (s : wait_for_silence_t)
    (h : wait_for_silence_start session silence_threshold silence_hits listen_hits
      timeout_ms = some s)
    (hz : timeout_ms = 0 ∨ s.read_impl.actual_samples_per_second < 1000) :
    s.sample_count = 0 := by
  rw [(start_budget session silence_threshold silence_hits listen_hits timeout_ms s h).1]
  have hprod : s.read_impl.actual_samples_per_second / 1000 * timeout_ms = 0 := by
    rcases hz with hz | hz
    · rw [hz, Nat.mul_zero]
    · rw [Nat.div_eq_of_lt hz, Nat.zero_mul]
  rw [hprod]
  rfl

/-- C6 (as stated, refuted): a detector started with timeout_ms 0 has budget 0;
on a non-empty frame the callback does not subtract the packet size (the budget
stays 0 instead of becoming -160) and does not complete, and it is still
pending after three further non-empty frames. -/
theorem C6_zero_budget_never_times_out :
    wait_for_silence_start (some session8k) 256 3 2 0 = some unlimited_state ∧
    unlimited_state.sample_count = 0 ∧
    unlimited_state.samples_per_packet = 160 ∧
    quiet_frame.samples ≠ 0 ∧
    (wait_for_silence_callback unlimited_state quiet_frame
      SWITCH_ABC_TYPE_READ_REPLACE).ret = true ∧
    (wait_for_silence_callback unlimited_state quiet_frame
      SWITCH_ABC_TYPE_READ_REPLACE).event = none ∧
    (wait_for_silence_callback unlimited_state quiet_frame
      SWITCH_ABC_TYPE_READ_REPLACE).wfs.sample_count = 0 ∧
    (wait_for_silence_callback unlimited_state quiet_frame
      SWITCH_ABC_TYPE_READ_REPLACE).wfs.complete = false ∧
    (feed_all unlimited_state
      [quiet_frame, quiet_frame, quiet_frame, quiet_frame]).complete = false := by
  decide

/-- C6 (amended): on a pending detector and a non-empty frame.  If the sample
budget is not 0, the callback first subtracts the packet size from the budget
(as an int32_t) and, if the result is <= 0, completes with TimedOut; and when
moreover the packet size is positive, any sequence of at least 2 ^ 31 + 1
non-empty frames leaves the detector complete.  If the sample budget is 0, the
timeout step is skipped: the frame goes to the hysteresis step with the state
unchanged, the budget stays 0 and no timeout is reported, on this frame and on
every frame of any sequence fed afterwards.  A start with timeout_ms 0, or on
a codec below 1000 Hz, gives a budget of 0. -/
theorem C6_timeout_step (s : wait_for_silence_t) (frame : switch_frame_t)
    (hc : s.complete = false) (hsd : s.silence_detected = false)
    (hframe : frame.samples ≠ 0) :
    (s.sample_count ≠ 0 →
      ((wait_for_silence_callback s frame SWITCH_ABC_TYPE_READ_REPLACE).wfs.sample_count =
        to_int32 (s.sample_count - s.samples_per_packet)) ∧
      (to_int32 (s.sample_count - s.samples_per_packet) ≤ 0 →
        (wait_for_silence_callback s frame SWITCH_ABC_TYPE_READ_REPLACE).ret = false ∧
        (wait_for_silence_callback s frame SWITCH_ABC_TYPE_READ_REPLACE).event = some false ∧
        (wait_for_silence_callback s frame SWITCH_ABC_TYPE_READ_REPLACE).wfs.complete = true ∧
        (wait_for_silence_callback s frame
          SWITCH_ABC_TYPE_READ_REPLACE).wfs.silence_detected = false ∧
        (wait_for_silence_callback s frame
          SWITCH_ABC_TYPE_READ_REPLACE).wfs.channel.wait_for_silence_timeout = some true) ∧
      (0 < s.samples_per_packet → s.samples_per_packet < 2147483648 →
        ∀ fs : List switch_frame_t, (∀ f ∈ fs, f.samples ≠ 0) →
          2147483649 ≤ fs.length → (feed_all s fs).complete = true)) ∧
    (s.sample_count = 0 →
      wait_for_silence_callback s frame SWITCH_ABC_TYPE_READ_REPLACE =
        callback_hysteresis s (frame_class s frame) ∧
      (wait_for_silence_callback s frame SWITCH_ABC_TYPE_READ_REPLACE).wfs.sample_count = 0 ∧
      (wait_for_silence_callback s frame SWITCH_ABC_TYPE_READ_REPLACE).event ≠ some false ∧
      ∀ fs : List switch_frame_t,
        (feed_all s fs).sample_count = 0 ∧
        ∀ r ∈ feed_trace s fs, r.wfs.sample_count = 0 ∧ r.event ≠ some false) ∧
    (∀ (session : Option switch_core_session_t)
      (silence_threshold silence_hits listen_hits timeout_ms : Nat)
      (s0 : wait_for_silence_t),
      wait_for_silence_start session silence_threshold silence_hits listen_hits
        timeout_ms = some s0 →
      (timeout_ms = 0 ∨ s0.read_impl.actual_samples_per_second < 1000) →
      s0.sample_count = 0) := by
  refine ⟨fun hbudget => ⟨?_, ?_, ?_⟩, fun h0 => ⟨?_, ?_, ?_, ?_⟩, ?_⟩
  · by_cases hb : to_int32 (s.sample_count - s.samples_per_packet) ≤ 0
    · rw [callback_timeout s frame hc hframe hbudget hb]
    · rw [callback_live s frame hc hframe (Or.inr (by omega))]
      rw [(hysteresis_static _ _).1]
      simp only [callback_decrement, if_pos hbudget]
  · intro hb
    rw [callback_timeout s frame hc hframe hbudget hb]
    exact ⟨rfl, by rw [hsd], rfl, hsd, rfl⟩
  · intro hp hp2 fs hfs hlen
    exact feed_all_complete_of_nonzero s fs hbudget hp hp2 hfs hlen
  · rw [callback_live s frame hc hframe (Or.inl h0), callback_decrement_zero s h0]
  · exact (callback_zero_budget s frame h0).1
  · exact (callback_zero_budget s frame h0).2
  · intro fs
    exact feed_zero_budget fs s h0
  · intro session thr sh lh t s0 hstart hz
    exact start_zero_budget session thr sh lh t s0 hstart hz

/-- C6 (witness): the amended statement at a detector with a budget of 160 and
at a detector with a budget of 0. -/
theorem C6_timeout_step_witness :
    ((last_packet_state.complete = false ∧ last_packet_state.silence_detected = false ∧
        quiet_frame.samples ≠ 0 ∧ last_packet_state.sample_count ≠ 0) ∧
      ((wait_for_silence_callback last_packet_state quiet_frame
          SWITCH_ABC_TYPE_READ_REPLACE).wfs.sample_count =
        to_int32 (last_packet_state.sample_count - last_packet_state.samples_per_packet)) ∧
      (to_int32 (last_packet_state.sample_count - last_packet_state.samples_per_packet) ≤ 0 →
        (wait_for_silence_callback last_packet_state quiet_frame
          SWITCH_ABC_TYPE_READ_REPLACE).ret = false ∧
        (wait_for_silence_callback last_packet_state quiet_frame
          SWITCH_ABC_TYPE_READ_REPLACE).event = some false ∧
        (wait_for_silence_callback last_packet_state quiet_frame
          SWITCH_ABC_TYPE_READ_REPLACE).wfs.complete = true ∧
        (wait_for_silence_callback last_packet_state quiet_frame
          SWITCH_ABC_TYPE_READ_REPLACE).wfs.silence_detected = false ∧
        (wait_for_silence_callback last_packet_state quiet_frame
          SWITCH_ABC_TYPE_READ_REPLACE).wfs.channel.wait_for_silence_timeout = some true) ∧
      (0 < last_packet_state.samples_per_packet →
        last_packet_state.samples_per_packet < 2147483648 →
        ∀ fs : List switch_frame_t, (∀ f ∈ fs, f.samples ≠ 0) →
          2147483649 ≤ fs.length → (feed_all last_packet_state fs).complete = true)) ∧
    ((unlimited_state.complete = false ∧ unlimited_state.silence_detected = false ∧
        quiet_frame.samples ≠ 0 ∧ unlimited_state.sample_count = 0) ∧
      wait_for_silence_callback unlimited_state quiet_frame SWITCH_ABC_TYPE_READ_REPLACE =
        callback_hysteresis unlimited_state (frame_class unlimited_state quiet_frame) ∧
      (wait_for_silence_callback unlimited_state quiet_frame
        SWITCH_ABC_TYPE_READ_REPLACE).wfs.sample_count = 0 ∧
      (wait_for_silence_callback unlimited_state quiet_frame
        SWITCH_ABC_TYPE_READ_REPLACE).event ≠ some false ∧
      ∀ fs : List switch_frame_t,
        (feed_all unlimited_state fs).sample_count = 0 ∧
        ∀ r ∈ feed_trace unlimited_state fs,
          r.wfs.sample_count = 0 ∧ r.event ≠ some false) :=
  ⟨⟨by decide,
      (C6_timeout_step last_packet_state quiet_frame (by decide) (by decide)
        (by decide)).1 (by decide)⟩,
    ⟨by decide,
      (C6_timeout_step unlimited_state quiet_frame (by decide) (by decide)
        (by decide)).2.1 (by decide)⟩⟩


/-- The loop agrees with its bounds-checked form whenever the latter succeeds. -/
theorem analyze_loop_checked_eq (buf : List Int) (c : Nat) (n : Nat) :
    ∀ (st r : analyze_loop_t), analyze_loop_checked buf c n st = some r →
      analyze_loop (fun i => (buf[i]?).getD 0) c n st = r := by
  induction n with
  | zero => intro st r h; simpa [analyze_loop_checked, analyze_loop] using h
  | succ n ih =>
    intro st r h
    simp only [analyze_loop_checked] at h
    split at h
    · rename_i sample next h1 h2
      have := ih _ r h
      simp only [analyze_loop, analyze_loop_body, h1, h2, Option.getD_some]
      exact this
    · cases h

theorem shift_down_small (p : Nat) (h : p < 9007199254740992) (fuel : Nat) :
    shift_down p fuel 0 = 0 := by
  cases fuel with
  | zero => rfl
  | succ fuel => simp [shift_down, h]

/-- Natural numbers below `2 ^ 53` are doubles. -/
theorem round_double_small (p : Nat) (h : p < 9007199254740992) : round_double p = p := by
  simp [round_double, shift_down_small p h, Nat.mod_one]

theorem div_scale_spec (a n : Nat) :
    ∀ fuel k, 4503599627370496 * n ≤ a * 2 ^ (k + fuel) →
      4503599627370496 * n ≤ a * 2 ^ (div_scale a n fuel k) := by
  intro fuel
  induction fuel with
  | zero => intro k h; simpa [div_scale] using h
  | succ fuel ih =>
    intro k h
    unfold div_scale
    split
    · assumption
    · apply ih
      rw [show k + 1 + fuel = k + (fuel + 1) by omega]
      exact h

/-- Rounding the scaled quotient up cannot reach the next integer when the
numerator is below `2 ^ 53`. -/
theorem round_quotient_floor (a n K q r : Nat) (hn : 0 < n)
    (ha : a < 9007199254740992) (hscale : 4503599627370496 * n ≤ a * K)
    (hq : q = a * K / n) (hr : r = a * K % n) (hround : n ≤ 2 * r) :
    (q + 1) / K = a / n := by
  have h1 : n * q + r = a * K := by rw [hq, hr]; exact Nat.div_add_mod _ _
  have h2 : n * (a / n) + a % n = a := Nat.div_add_mod _ _
  have hrn : r < n := by rw [hr]; exact Nat.mod_lt _ hn
  have hRn : a % n < n := Nat.mod_lt _ hn
  generalize a / n = Q at *
  generalize a % n = R at *
  apply Nat.div_eq_of_lt_le
  · have : n * (Q * K) ≤ n * (q + 1) := by nlinarith
    exact Nat.le_of_mul_le_mul_left this hn
  · by_contra hcon
    have hge : (Q + 1) * K ≤ q + 1 := by omega
    have hlt : q < (Q + 1) * K := by
      have : n * q < n * ((Q + 1) * K) := by nlinarith
      exact Nat.lt_of_mul_lt_mul_left this
    have heq : q + 1 = (Q + 1) * K := by omega
    have hKr : K + r ≤ n := by nlinarith
    have h2K : 2 * K ≤ n := by omega
    have : 9007199254740992 * n ≤ a * n := by nlinarith
    have : 9007199254740992 ≤ a := Nat.le_of_mul_le_mul_right this hn
    omega

/-- For a numerator below `2 ^ 53` and a 32-bit divisor, the double quotient
truncates to the integer quotient. -/
theorem div_double_trunc_exact (a n : Nat) (hn : 0 < n) (hn32 : n < 4294967296)
    (ha : a < 9007199254740992) : div_double_trunc a n = a / n := by
  unfold div_double_trunc
  by_cases h0 : a = 0
  · simp [h0]
  rw [if_neg h0]
  have hbig : ¬ 9007199254740992 * n ≤ a := by
    intro h
    have : 9007199254740992 * 1 ≤ 9007199254740992 * n := Nat.mul_le_mul_left _ hn
    omega
  rw [if_neg hbig]
  have hscale : 4503599627370496 * n ≤ a * 2 ^ (div_scale a n 128 0) := by
    apply div_scale_spec
    have h84 : 4503599627370496 * n ≤ 2 ^ 84 := by
      have : (2:Nat) ^ 84 = 4503599627370496 * 4294967296 := by norm_num
      rw [this]; exact Nat.mul_le_mul_left _ (Nat.le_of_lt hn32)
    have hpow : (2:Nat) ^ 84 ≤ 2 ^ (0 + 128) :=
      Nat.pow_le_pow_right (by omega) (by omega)
    have ha1 : 1 ≤ a := Nat.pos_of_ne_zero h0
    calc 4503599627370496 * n ≤ 2 ^ 84 := h84
      _ ≤ 2 ^ (0 + 128) := hpow
      _ = 1 * 2 ^ (0 + 128) := (Nat.one_mul _).symm
      _ ≤ a * 2 ^ (0 + 128) := Nat.mul_le_mul_right _ ha1
  simp only []
  generalize div_scale a n 128 0 = k at hscale ⊢
  have hK : 0 < 2 ^ k := Nat.two_pow_pos k
  generalize 2 ^ k = K at hscale hK ⊢
  have hfloor : a * K / n / K = a / n := by
    rw [Nat.div_div_eq_div_mul, Nat.mul_div_mul_right _ _ hK]
  split
  · rename_i hround
    apply round_quotient_floor a n K _ _ hn ha hscale rfl rfl
    rcases hround with h | ⟨h, -⟩ <;> omega
  · exact hfloor

theorem to_int16_natAbs_le (x : Int) : (to_int16 x).natAbs ≤ 32768 := by
  unfold to_int16; omega

/-- The energy of `n` samples is at most `32768 * n`. -/
theorem analyze_loop_energy_le (data : Nat → Int) (c : Nat) (n : Nat) :
    ∀ st : analyze_loop_t,
      (analyze_loop data c n st).energy ≤ st.energy + 32768 * n := by
  induction n with
  | zero => intro st; simp [analyze_loop]
  | succ n ih =>
    intro st
    have h1 := ih (analyze_loop_body data c st)
    have h2 : (analyze_loop_body data c st).energy ≤ st.energy + 32768 := by
      simp only [analyze_loop_body]
      have := to_int16_natAbs_le (data ((st.j + 1) % 4294967296))
      omega
    simp only [analyze_loop]
    omega


/-- A sum whose first term is `a` and whose other terms are all `b`. -/
theorem sum_first_rest (n m : Nat) (g : Nat → Nat) (a b : Nat) (hn : n = m + 1)
    (h0 : g 0 = a) (hrest : ∀ k, 0 < k → k < n → g k = b) :
    Finset.sum (Finset.range n) g = m * b + a := by
  subst hn
  rw [Finset.sum_range_succ', h0]
  have : ∀ k ∈ Finset.range m, g (k + 1) = b := fun k hk =>
    hrest (k + 1) (by omega) (by have := Finset.mem_range.mp hk; omega)
  rw [Finset.sum_congr rfl this, Finset.sum_const, Finset.card_range, smul_eq_mul]

theorem three_mul_ne_two_pow (k q : Nat) (h : 3 * k = 4294967296 * q) (hq : q = 1) :
    False := by
  subst hq
  have h1 : 3 * k % 3 = 0 := Nat.mul_mod_right 3 k
  rw [h] at h1
  exact absurd h1 (by decide)

/-- With a stride of 3, the cursor does not come back to position 1 within
`2 ^ 31 + 1` samples. -/
theorem huge_frame_position (k : Nat) (hk0 : 0 < k) (hkn : k < 2147483649) :
    (0 + k * (2 + 1) + 1) % 4294967296 ≠ 1 := by
  intro hmod
  have hdiv := Nat.div_add_mod (0 + k * (2 + 1) + 1) 4294967296
  rw [hmod] at hdiv
  clear hmod
  generalize (0 + k * (2 + 1) + 1) / 4294967296 = q at hdiv
  have hq : q = 1 := by
    rcases Nat.lt_or_ge q 1 with h | h
    · have : q = 0 := by clear hdiv; omega
      subst this
      omega
    · rcases Nat.lt_or_ge q 2 with h2 | h2
      · clear hdiv; omega
      · exfalso
        linarith
  exact three_mul_ne_two_pow k q (by linarith) hq

theorem huge_frame_sample (k : Nat) (hk0 : 0 < k) (hkn : k < 2147483649) :
    (to_int16 (huge_frame.data ((0 + k * (2 + 1) + 1) % 4294967296))).natAbs = 8 := by
  have hd : huge_frame.data ((0 + k * (2 + 1) + 1) % 4294967296) = 8 :=
    if_neg (huge_frame_position k hk0 hkn)
  rw [hd]
  decide

/-- The energy of `huge_frame`: `2 ^ 31` samples of 8 and one of 4104. -/
theorem huge_frame_energy :
    (analyze_loop huge_frame.data fast_codec.number_of_channels huge_frame.samples
      { j := 0, sum_sq := 0, energy := 0 }).energy = 17179873288 := by
  have hsum := sum_first_rest huge_frame.samples 2147483648
    (fun k => (to_int16 (huge_frame.data
      ((({ j := 0, sum_sq := 0, energy := 0 } : analyze_loop_t).j +
        k * (2 + fast_codec.number_of_channels) + 1) % 4294967296))).natAbs)
    4104 8 rfl (by decide) (fun k hk0 hkn => huge_frame_sample k hk0 hkn)
  have hcl := (analyze_loop_closed huge_frame.data fast_codec.number_of_channels
    huge_frame.samples { j := 0, sum_sq := 0, energy := 0 } (by decide)).2.2
  exact hcl.trans (by rw [hsum])

theorem analyze_frame_energy (f : switch_frame_t)
    (codec : switch_codec_implementation_t) (silence_threshold : Nat) :
    (wait_for_silence_analyze_frame f codec silence_threshold).energy =
      (analyze_loop f.data codec.number_of_channels f.samples
        { j := 0, sum_sq := 0, energy := 0 }).energy := rfl

theorem analyze_frame_score (f : switch_frame_t)
    (codec : switch_codec_implementation_t) (silence_threshold : Nat) :
    (wait_for_silence_analyze_frame f codec silence_threshold).score =
      div_double_trunc (round_double
        ((analyze_loop f.data codec.number_of_channels f.samples
          { j := 0, sum_sq := 0, energy := 0 }).energy *
          (codec.actual_samples_per_second / 8000))) f.samples % 4294967296 := rfl

/-- The double arithmetic at the energy, rate and sample count of
`huge_frame`. -/
theorem huge_frame_quotient :
    div_double_trunc (round_double (17179873288 *
      (fast_codec.actual_samples_per_second / 8000))) huge_frame.samples % 4294967296 =
      4194305 := by decide

/-- C17 (as stated, refuted): at a sample rate of 8000 * 2 ^ 19 Hz, a frame of
2 ^ 31 + 1 samples with energy E = 17179873288 has
floor(E * floor(r / 8000) / n) = 4194304, below 2 ^ 32, but the quotient
E * 524288 / n = 4194305 - 1 / n rounds to the double 4194305, so the score
is 4194305. -/
theorem C17_double_quotient_rounds_up :
    huge_frame.samples = 2147483649 ∧
    fast_codec.actual_samples_per_second / 8000 = 524288 ∧
    (wait_for_silence_analyze_frame huge_frame fast_codec 256).energy = 17179873288 ∧
    17179873288 * 524288 / 2147483649 = 4194304 ∧
    17179873288 * 524288 = 4194305 * 2147483649 - 1 ∧
    (wait_for_silence_analyze_frame huge_frame fast_codec 256).score = 4194305 :=
  ⟨rfl, by decide,
    (analyze_frame_energy huge_frame fast_codec 256).trans huge_frame_energy,
    by decide, by decide,
    ((analyze_frame_score huge_frame fast_codec 256).trans
      (congrArg (fun e => div_double_trunc (round_double
        (e * (fast_codec.actual_samples_per_second / 8000))) huge_frame.samples
          % 4294967296) huge_frame_energy)).trans huge_frame_quotient⟩

/-- C17 (amended): for every frame with sample_count n, 0 < n < 2 ^ 32, sample
rate r and energy E: whenever E * floor(r / 8000) < 2 ^ 53, which is the case
for every r < 520000, the score is floor(E * floor(r / 8000) / n) modulo
2 ^ 32, and equals that value when it is below 2 ^ 32; the score is 0 when
r < 8000; and two frames with the same sample count and the same energy have
the same score. -/
theorem C17_score_formula (f : switch_frame_t)
    (codec : switch_codec_implementation_t) (silence_threshold : Nat)
    (hn : 0 < f.samples) (hn32 : f.samples < 4294967296) :
    ((wait_for_silence_analyze_frame f codec silence_threshold).energy *
        (codec.actual_samples_per_second / 8000) < 9007199254740992 →
      (wait_for_silence_analyze_frame f codec silence_threshold).score =
        (wait_for_silence_analyze_frame f codec silence_threshold).energy *
          (codec.actual_samples_per_second / 8000) / f.samples % 4294967296 ∧
      ((wait_for_silence_analyze_frame f codec silence_threshold).energy *
          (codec.actual_samples_per_second / 8000) / f.samples < 4294967296 →
        (wait_for_silence_analyze_frame f codec silence_threshold).score =
          (wait_for_silence_analyze_frame f codec silence_threshold).energy *
            (codec.actual_samples_per_second / 8000) / f.samples)) ∧
    (codec.actual_samples_per_second < 520000 →
      (wait_for_silence_analyze_frame f codec silence_threshold).energy *
        (codec.actual_samples_per_second / 8000) < 9007199254740992) ∧
    (codec.actual_samples_per_second < 8000 →
      (wait_for_silence_analyze_frame f codec silence_threshold).score = 0) ∧
    (∀ g : switch_frame_t, g.samples = f.samples →
      (wait_for_silence_analyze_frame g codec silence_threshold).energy =
        (wait_for_silence_analyze_frame f codec silence_threshold).energy →
      (wait_for_silence_analyze_frame g codec silence_threshold).score =
        (wait_for_silence_analyze_frame f codec silence_threshold).score) := by
  simp only [wait_for_silence_analyze_frame]
  refine ⟨?_, ?_, ?_, ?_⟩
  · intro hP
    rw [round_double_small _ hP, div_double_trunc_exact _ _ hn hn32 hP]
    exact ⟨rfl, fun h => Nat.mod_eq_of_lt h⟩
  · intro hr
    have hE := analyze_loop_energy_le f.data codec.number_of_channels f.samples
      { j := 0, sum_sq := 0, energy := 0 }
    simp only [Nat.zero_add] at hE
    have hd : codec.actual_samples_per_second / 8000 ≤ 64 := by omega
    calc (analyze_loop f.data codec.number_of_channels f.samples
          { j := 0, sum_sq := 0, energy := 0 }).energy *
          (codec.actual_samples_per_second / 8000)
        ≤ (32768 * f.samples) * 64 := Nat.mul_le_mul hE hd
      _ < 9007199254740992 := by omega
  · intro hr
    have hd : codec.actual_samples_per_second / 8000 = 0 := by omega
    rw [hd, Nat.mul_zero, round_double_small 0 (by decide)]
    simp [div_double_trunc]
  · intro g hg he
    rw [hg] at he ⊢
    rw [he]

/-- C17 (witness): one sample of value 300 at 8000 Hz. -/
theorem C17_score_formula_witness :
    (0 < voice_frame.samples ∧ voice_frame.samples < 4294967296 ∧
      (wait_for_silence_analyze_frame voice_frame pcmu8k 256).energy *
        (pcmu8k.actual_samples_per_second / 8000) < 9007199254740992) ∧
    (wait_for_silence_analyze_frame voice_frame pcmu8k 256).score =
      (wait_for_silence_analyze_frame voice_frame pcmu8k 256).energy *
        (pcmu8k.actual_samples_per_second / 8000) / voice_frame.samples % 4294967296 :=
  ⟨by decide, ((C17_score_formula voice_frame pcmu8k 256 (by decide) (by decide)).1
    (by decide)).1⟩


/-- The example tokenizer honours the array length: it never returns more
arguments than it was asked for. -/
theorem separate_at_blanks_length (cs : List Char) :
    ∀ n : Nat,
      (separate_at_blanks cs n none).length ≤ n ∧
      ∀ word : List Char, (separate_at_blanks cs n (some word)).length ≤ n + 1 := by
  induction cs with
  | nil => intro n; simp [separate_at_blanks]
  | cons c cs ih =>
    intro n
    constructor
    · simp only [separate_at_blanks]
      by_cases h1 : c = ' '
      · rw [if_pos h1]; exact (ih n).1
      rw [if_neg h1]
      by_cases h2 : n = 0
      · rw [if_pos h2]; simp
      rw [if_neg h2]
      by_cases h3 : n = 1
      · rw [if_pos h3]; simp [h3]
      rw [if_neg h3]
      have := (ih (n - 1)).2 [c]
      omega
    · intro word
      simp only [separate_at_blanks]
      by_cases h1 : c = ' '
      · rw [if_pos h1, List.length_cons]
        have := (ih n).1
        omega
      · rw [if_neg h1]; exact (ih n).2 (c :: word)

/-- C14 (as stated, refuted): the command line `uuid1 startle`, whose command
word is neither `start` nor `stop`, does not get the usage error: the word
begins with `start`, so a detector is started with the configured defaults
and the reply is `+OK`; likewise `uuid1 STOPPED` is taken as `stop`.  And the
count that is tested is the number of arguments delivered into the 6 slots of
`argv`, not the number of words: the nine-word line
`uuid1 start 1 2 3 4 5 6 7` is delivered as 6 arguments, the sixth being
`4 5 6 7`, and starts a detector with the parameters 1, 2, 3, 4; the example
host never delivers more than 6. -/
theorem C14_prefix_is_accepted_as_start :
    (one_session_host.switch_separate_string "uuid1 startle" 6 = ["uuid1", "startle"] ∧
    (wait_for_silence_api_main default_globals one_session_host
      (some "uuid1 startle")).reply = some api_reply_t.OK ∧
    (wait_for_silence_api_main default_globals one_session_host
      (some "uuid1 startle")).action =
      api_action_t.started 256 100 15 60000
        (wait_for_silence_start (some session8k) 256 100 15 60000) ∧
    (wait_for_silence_api_main default_globals one_session_host
      (some "uuid1 STOPPED")).reply ≠ some api_reply_t.USAGE ∧
    one_session_host.switch_separate_string "uuid1 start 1 2 3 4 5 6 7" 6 =
      ["uuid1", "start", "1", "2", "3", "4 5 6 7"] ∧
    wait_for_silence_api_main default_globals one_session_host
      (some "uuid1 start 1 2 3 4 5 6 7") =
      { reply := some api_reply_t.OK
        action := api_action_t.started 1 2 3 4
          (wait_for_silence_start (some session8k) 1 2 3 4) }) ∧
    ∀ cmd : String, (one_session_host.switch_separate_string cmd 6).length ≤ 6 :=
  ⟨by decide, fun cmd => (separate_at_blanks_length cmd.data 6).1⟩

/-- C14 (amended): the command replies with the usage error exactly when the
command line is NULL or empty, or the number of arguments that
`switch_separate_string` returns when it splits the line into the 6 slots of
`argv` (a count capped by the array, not the number of words of the line) is
neither 2 nor 6, or the second argument does not begin, up to case, with
`start` or `stop`, or the session named by the first argument is not found,
and then it starts or stops nothing; on a session without a detector, a start
command delivered as 2 arguments starts one with the configured defaults, and
one delivered as 6 arguments with arguments 3 to 6, read by `atoi` and
converted to `uint32_t`, as silence_threshold, silence_hits, listen_hits and
timeout_ms. -/
theorem C14_command_validation (globals : globals_t) (host : api_host_t)
    (cmd : String) :
    (wait_for_silence_api_main globals host none =
      { reply := some api_reply_t.USAGE, action := api_action_t.nothing }) ∧
    ((wait_for_silence_api_main globals host (some cmd)).reply = some api_reply_t.USAGE ↔
      (cmd = "" ∨
        ((host.switch_separate_string cmd 6).length ≠ 2 ∧
          (host.switch_separate_string cmd 6).length ≠ 6) ∨
        (strncasecmp_eq ((host.switch_separate_string cmd 6).getD 1 "") "start" 5 = false ∧
          strncasecmp_eq ((host.switch_separate_string cmd 6).getD 1 "") "stop" 4 = false) ∨
        host.switch_core_session_locate
          ((host.switch_separate_string cmd 6).getD 0 "") = none)) ∧
    ((wait_for_silence_api_main globals host (some cmd)).reply = some api_reply_t.USAGE →
      (wait_for_silence_api_main globals host (some cmd)).action = api_action_t.nothing) ∧
    (∀ session : switch_core_session_t, cmd ≠ "" →
      strncasecmp_eq ((host.switch_separate_string cmd 6).getD 1 "") "start" 5 = true →
      host.switch_core_session_locate
        ((host.switch_separate_string cmd 6).getD 0 "") = some session →
      session.channel.wait_for_silence_bug_ = false →
      ((host.switch_separate_string cmd 6).length = 2 →
        wait_for_silence_api_main globals host (some cmd) =
          { reply := some api_reply_t.OK
            action := api_action_t.started globals.silence_threshold globals.silence_hits
              globals.listen_hits globals.timeout_ms
              (wait_for_silence_start (some session) globals.silence_threshold
                globals.silence_hits globals.listen_hits globals.timeout_ms) }) ∧
      ((host.switch_separate_string cmd 6).length = 6 →
        wait_for_silence_api_main globals host (some cmd) =
          { reply := some api_reply_t.OK
            action := api_action_t.started
              (to_uint32 (host.atoi ((host.switch_separate_string cmd 6).getD 2 "")))
              (to_uint32 (host.atoi ((host.switch_separate_string cmd 6).getD 3 "")))
              (to_uint32 (host.atoi ((host.switch_separate_string cmd 6).getD 4 "")))
              (to_uint32 (host.atoi ((host.switch_separate_string cmd 6).getD 5 "")))
              (wait_for_silence_start (some session)
                (to_uint32 (host.atoi ((host.switch_separate_string cmd 6).getD 2 "")))
                (to_uint32 (host.atoi ((host.switch_separate_string cmd 6).getD 3 "")))
                (to_uint32 (host.atoi ((host.switch_separate_string cmd 6).getD 4 "")))
                (to_uint32 (host.atoi ((host.switch_separate_string cmd 6).getD 5 "")))) })) := by
  simp only [wait_for_silence_api_main, WAIT_FOR_SILENCE_PARAMS]
  refine ⟨trivial, ?_, ?_, ?_⟩
  · by_cases h1 : cmd = ""
    · rw [if_pos h1]; exact ⟨fun _ => Or.inl h1, fun _ => rfl⟩
    rw [if_neg h1]
    by_cases h2 : (host.switch_separate_string cmd 6).length ≠ 2 ∧
        (host.switch_separate_string cmd 6).length ≠ 6
    · rw [if_pos h2]; exact ⟨fun _ => Or.inr (Or.inl h2), fun _ => rfl⟩
    rw [if_neg h2]
    by_cases h3 : strncasecmp_eq ((host.switch_separate_string cmd 6).getD 1 "") "start" 5
        = false ∧
        strncasecmp_eq ((host.switch_separate_string cmd 6).getD 1 "") "stop" 4 = false
    · rw [if_pos h3]; exact ⟨fun _ => Or.inr (Or.inr (Or.inl h3)), fun _ => rfl⟩
    rw [if_neg h3]
    cases hl : host.switch_core_session_locate
        ((host.switch_separate_string cmd 6).getD 0 "") with
    | none => exact ⟨fun _ => Or.inr (Or.inr (Or.inr rfl)), fun _ => rfl⟩
    | some session =>
      constructor
      · intro h
        exfalso
        simp only [] at h
        split_ifs at h <;> cases h
      · rintro (h | h | h | h)
        · exact absurd h h1
        · exact absurd h h2
        · exact absurd h h3
        · cases h
  · by_cases h1 : cmd = ""
    · rw [if_pos h1]; exact fun _ => rfl
    rw [if_neg h1]
    by_cases h2 : (host.switch_separate_string cmd 6).length ≠ 2 ∧
        (host.switch_separate_string cmd 6).length ≠ 6
    · rw [if_pos h2]; exact fun _ => rfl
    rw [if_neg h2]
    by_cases h3 : strncasecmp_eq ((host.switch_separate_string cmd 6).getD 1 "") "start" 5
        = false ∧
        strncasecmp_eq ((host.switch_separate_string cmd 6).getD 1 "") "stop" 4 = false
    · rw [if_pos h3]; exact fun _ => rfl
    rw [if_neg h3]
    cases hl : host.switch_core_session_locate
        ((host.switch_separate_string cmd 6).getD 0 "") with
    | none => exact fun _ => rfl
    | some session =>
      intro h
      exfalso
      simp only [] at h
      split_ifs at h <;> cases h
  · intro session h1 hstart hl hbug
    have h3 : ¬ (strncasecmp_eq ((host.switch_separate_string cmd 6).getD 1 "") "start" 5
        = false ∧
        strncasecmp_eq ((host.switch_separate_string cmd 6).getD 1 "") "stop" 4 = false) := by
      rw [hstart]; simp
    have hbug' : ¬ session.channel.wait_for_silence_bug_ = true := by rw [hbug]; simp
    refine ⟨?_, ?_⟩
    · intro hlen
      have h2 : ¬ ((host.switch_separate_string cmd 6).length ≠ 2 ∧
          (host.switch_separate_string cmd 6).length ≠ 6) := by omega
      have h6 : ¬ (host.switch_separate_string cmd 6).length = 6 := by omega
      rw [if_neg h1, if_neg h2, if_neg h3, hl]
      simp only [if_neg hbug', if_pos hstart, if_neg h6]
    · intro hlen
      have h2 : ¬ ((host.switch_separate_string cmd 6).length ≠ 2 ∧
          (host.switch_separate_string cmd 6).length ≠ 6) := by omega
      rw [if_neg h1, if_neg h2, if_neg h3, hl]
      simp only [if_neg hbug', if_pos hstart, if_pos hlen]


/-- When the checked loop succeeds, every energy position was inside the
buffer. -/
theorem analyze_loop_checked_some (buf : List Int) (c : Nat) (n : Nat) :
    ∀ (st r : analyze_loop_t), analyze_loop_checked buf c n st = some r →
      ∀ k, k < n → (st.j + k * (2 + c) + 1) % 4294967296 < buf.length := by
  induction n with
  | zero => intro st r _ k hk; omega
  | succ n ih =>
    intro st r h k hk
    simp only [analyze_loop_checked] at h
    split at h
    · rename_i sample next h1 h2
      have hlt : (st.j + 1) % 4294967296 < buf.length := by
        by_contra hge
        rw [List.getElem?_eq_none (by omega)] at h2
        cases h2
      cases k with
      | zero => simpa using hlt
      | succ k =>
        have := ih _ r h k (by omega)
        have hidx : ((((st.j + 1) % 4294967296 + 1) % 4294967296 + c) % 4294967296 +
            k * (2 + c) + 1) % 4294967296 =
            (st.j + (k + 1) * (2 + c) + 1) % 4294967296 := by
          rw [Nat.succ_mul]; omega
        simp only [] at this
        rw [hidx] at this
        exact this
    · cases h

/-- On a buffer of `n * c` samples the checked loop fails whenever
`2 * n > c + 1` (and the cursor does not wrap). -/
theorem analyze_loop_checked_none (buf : List Int) (c n : Nat)
    (hlen : buf.length = n * c) (hn : 2 * n > c + 1)
    (hwrap : n * (2 + c) ≤ 4294967296) :
    analyze_loop_checked buf c n { j := 0, sum_sq := 0, energy := 0 } = none := by
  cases h : analyze_loop_checked buf c n { j := 0, sum_sq := 0, energy := 0 } with
  | none => rfl
  | some r =>
    exfalso
    have hn1 : 1 ≤ n := by omega
    have hk := analyze_loop_checked_some buf c n _ r h (n - 1) (by omega)
    simp only [Nat.zero_add] at hk
    obtain ⟨m, rfl⟩ : ∃ m, n = m + 1 := ⟨n - 1, by omega⟩
    simp only [Nat.add_sub_cancel] at hk
    rw [Nat.succ_mul] at hwrap hlen
    rw [Nat.mod_eq_of_lt (by omega), hlen] at hk
    have e1 : m * (2 + c) = 2 * m + m * c := by ring
    rw [e1] at hk
    omega

set_option maxRecDepth 20000

/-- C19 (code at the failing input): on a mono frame of 160 samples whose
buffer holds 160 samples, the loop reads outside the buffer (position 160 on
its 54th pass); and it does so on every buffer of n * c samples with
2 * n > c + 1. -/
theorem C19_reads_past_frame_samples :
    mono_buffer.length = 160 * 1 ∧
    analyze_loop_checked mono_buffer 1 160 { j := 0, sum_sq := 0, energy := 0 } = none ∧
    (analyze_loop_checked mono_buffer 1 53
      { j := 0, sum_sq := 0, energy := 0 }).map (fun st => st.j) = some 159 ∧
    mono_buffer[(159 + 1) % 4294967296]? = none ∧
    (∀ (buf : List Int) (c n : Nat), buf.length = n * c → 2 * n > c + 1 →
      n * (2 + c) ≤ 4294967296 →
      analyze_loop_checked buf c n { j := 0, sum_sq := 0, energy := 0 } = none) := by
  have hlen : mono_buffer.length = 160 * 1 := List.length_replicate _ _
  refine ⟨hlen, ?_, by decide, by decide, analyze_loop_checked_none⟩
  exact analyze_loop_checked_none mono_buffer 1 160 hlen (by decide) (by decide)

end WaitForSilence
